import Mathlib

/-!
# SQLParrot — verification of the snapshot orchestration core

Shallow embedding of the SQLParrot metadata store and snapshot
orchestration commands (`src-tauri/src/db/metadata.rs`,
`src-tauri/src/commands/{snapshots,groups,profiles,settings}.rs`).

The local SQLite metadata store is modelled as a record of lists; the
remote SQL Server is modelled by an environment that supplies the
observable server state (live snapshot objects with their source
database) and oracles for the outcome of each remote call, together
with a trace of the remote operations the code requests.  UUIDs,
wall-clock timestamps and the OS user name are nondeterministic inputs
of the real code and are supplied through the same environment.
-/

namespace SQLParrot

/-- `models.rs` / `metadata.rs`: one database entry inside a checkpoint. -/
structure DatabaseSnapshot where
  database : String
  snapshot_name : String
  success : Bool
  error : Option String
deriving DecidableEq, Repr

/-- `models.rs` / `metadata.rs`: a checkpoint (one coordinated capture of a group). -/
structure Snapshot where
  id : String
  group_id : String
  display_name : String
  sequence : Nat
  created_at : Nat
  created_by : Option String
  database_snapshots : List DatabaseSnapshot
  is_automatic : Bool
deriving DecidableEq, Repr

/-- `models.rs` / `metadata.rs`: a group of databases checkpointed together.
`profile_id` is the optional reference to the connection profile used by
`commands/groups.rs` (`get_profile_for_group`). -/
structure Group where
  id : String
  name : String
  databases : List String
  profile_id : Option String
  created_by : Option String
  created_at : Nat
  updated_at : Nat
deriving DecidableEq, Repr

/-- `models.rs`: per-database result of an operation. -/
structure OperationResult where
  database : String
  success : Bool
  error : Option String
deriving DecidableEq, Repr

/-- `models.rs`: history entry.  The UUID id, timestamp and user name are
environment-generated and carry no program logic; they are elided. -/
structure HistoryEntry where
  operation_type : String
  results : Option (List OperationResult)
deriving DecidableEq, Repr

/-- `models.rs`: settings preferences.  `auto_create_checkpoint` is the flag
read by `rollback_snapshot` (`settings.preferences.auto_create_checkpoint`). -/
structure SettingsPreferences where
  default_group : String
  max_history_entries : Nat
  auto_create_checkpoint : Bool
deriving DecidableEq, Repr

/-- `models.rs`: auto verification settings. -/
structure AutoVerification where
  enabled : Bool
  interval_minutes : Nat
deriving DecidableEq, Repr

/-- `models.rs`: connection info stored in settings. -/
structure ConnectionInfo where
  server : String
  port : Nat
  connected : Bool
deriving DecidableEq, Repr

/-- `models.rs` `Default for ConnectionInfo` (serde defaults). -/
def ConnectionInfo.default : ConnectionInfo :=
  { server := "", port := 0, connected := false }

/-- `models.rs`: the settings singleton, including the UI password fields
used by `commands/settings.rs`. -/
structure Settings where
  preferences : SettingsPreferences
  auto_verification : AutoVerification
  connection : ConnectionInfo
  password_hash : Option String
  password_skipped : Bool
deriving DecidableEq, Repr

/-- `metadata.rs`: a connection profile row (`profiles` table). -/
structure Profile where
  id : String
  name : String
  platform_type : String
  host : String
  port : Nat
  username : String
  password : String
  trust_certificate : Bool
  snapshot_path : String
  description : Option String
  notes : Option String
  is_active : Bool
  created_at : Nat
  updated_at : Nat
deriving DecidableEq, Repr

/-- The local metadata store (`metadata.rs`): groups, snapshots, history,
the settings singleton and the profiles table. -/
structure Store where
  groups : List Group
  snapshots : List Snapshot
  history : List HistoryEntry
  settings : Settings
  profiles : List Profile
deriving DecidableEq, Repr

/-- `metadata.rs` `get_snapshots`: `SELECT ... FROM snapshots WHERE group_id = ?`.
The SQL orders rows by `sequence DESC`; every property proved below is
insensitive to the enumeration order, so the rows are kept in table order. -/
def Store.get_snapshots (store : Store) (group_id : String) : List Snapshot :=
  store.snapshots.filter (fun s => s.group_id = group_id)

/-- `metadata.rs` `add_snapshot`: `INSERT INTO snapshots ...`. -/
def Store.add_snapshot (store : Store) (s : Snapshot) : Store :=
  { store with snapshots := store.snapshots ++ [s] }

/-- `metadata.rs` `delete_snapshot`: `DELETE FROM snapshots WHERE id = ?`. -/
def Store.delete_snapshot (store : Store) (snapshot_id : String) : Store :=
  { store with snapshots := store.snapshots.filter (fun s => ¬ s.id = snapshot_id) }

/-- `metadata.rs` `delete_snapshots_for_group`:
`DELETE FROM snapshots WHERE group_id = ?`. -/
def Store.delete_snapshots_for_group (store : Store) (group_id : String) : Store :=
  { store with snapshots := store.snapshots.filter (fun s => ¬ s.group_id = group_id) }

/-- `metadata.rs` `add_history`: `INSERT INTO history ...`. -/
def Store.add_history (store : Store) (e : HistoryEntry) : Store :=
  { store with history := store.history ++ [e] }

/-- `metadata.rs` `get_next_sequence`:
`SELECT MAX(sequence) FROM snapshots WHERE group_id = ?`, then
`max.unwrap_or(0) + 1` (SQL `MAX` is `NULL` on an empty set, read as `None`). -/
def Store.get_next_sequence (store : Store) (group_id : String) : Nat :=
  ((store.get_snapshots group_id).map Snapshot.sequence).foldr max 0 + 1

/-- `metadata.rs` `update_settings`: `UPDATE settings SET data = ? WHERE id = 1`. -/
def Store.update_settings (store : Store) (s : Settings) : Store :=
  { store with settings := s }

/-- `metadata.rs` `update_group`:
`UPDATE groups SET name = ?, databases = ?, updated_at = ? WHERE id = ?`. -/
def Store.update_group (store : Store) (g : Group) : Store :=
  { store with groups := store.groups.map (fun q =>
      if q.id = g.id then
        { q with name := g.name, databases := g.databases, updated_at := g.updated_at }
      else q) }

/-- `commands/settings.rs` `update_settings`: reads the current settings,
builds a new `Settings` from the supplied preferences and auto-verification,
resets `connection` with `Default::default()`, preserves the password fields,
and stores it.  Returns the updated store together with the settings value
echoed to the caller. -/
def update_settings_cmd (store : Store) (preferences : SettingsPreferences)
    (autoVerification : AutoVerification) : Store × Settings :=
  let current_settings := store.settings
  let settings : Settings :=
    { preferences := preferences
      auto_verification := autoVerification
      connection := ConnectionInfo.default
      password_hash := current_settings.password_hash
      password_skipped := current_settings.password_skipped }
  (store.update_settings settings, settings)

/-! ### C7: next-sequence computation -/

/-- Helper: the fold computing the SQL `MAX(sequence)` bounds every element. -/
theorem le_foldr_max (l : List Nat) (x : Nat) (hx : x ∈ l) : x ≤ l.foldr max 0 := by
  induction l with
  | nil => cases hx
  | cons a t ih =>
    rcases List.mem_cons.mp hx with h | h
    · subst h; exact le_max_left _ _
    · exact le_trans (ih h) (le_max_right _ _)

/-- Concrete store used for the sequence-number examples: group `g` with
three checkpoints of sequences 1, 2, 3. -/
def seqExampleStore : Store :=
  { groups := [{ id := "g", name := "G", databases := ["db1"], profile_id := none,
                 created_by := none, created_at := 0, updated_at := 0 }]
    snapshots :=
      [ { id := "s1", group_id := "g", display_name := "one", sequence := 1,
          created_at := 0, created_by := none, database_snapshots := [], is_automatic := false }
      , { id := "s2", group_id := "g", display_name := "two", sequence := 2,
          created_at := 0, created_by := none, database_snapshots := [], is_automatic := false }
      , { id := "s3", group_id := "g", display_name := "three", sequence := 3,
          created_at := 0, created_by := none, database_snapshots := [], is_automatic := false } ]
    history := []
    settings := { preferences := { default_group := "", max_history_entries := 100,
                                   auto_create_checkpoint := false }
                  auto_verification := { enabled := false, interval_minutes := 15 }
                  connection := ConnectionInfo.default
                  password_hash := none, password_skipped := false }
    profiles := [] }

/-- **C7 (amended).** `get_next_sequence` returns `1 + max(sequence)` over the
currently stored checkpoints of the group — strictly greater than every stored
sequence, and 1 when the group has none — so after inserting checkpoints with
sequences {1,2,3} and deleting sequence 2 it returns 4, never 2 or a gap-fill.
However, sequence numbers can be reused after the checkpoint holding the
maximum sequence is deleted (see the counterexample). -/
theorem get_next_sequence_spec :
    (∀ (store : Store) (gid : String),
        (∀ s ∈ store.get_snapshots gid, s.sequence < store.get_next_sequence gid)) ∧
    (∀ (store : Store) (gid : String),
        store.get_snapshots gid = [] → store.get_next_sequence gid = 1) ∧
    (seqExampleStore.delete_snapshot "s2").get_next_sequence "g" = 4 := by
  refine ⟨?_, ?_, ?_⟩
  · intro store gid s hs
    have hmem : s.sequence ∈ (store.get_snapshots gid).map Snapshot.sequence :=
      List.mem_map_of_mem Snapshot.sequence hs
    have := le_foldr_max _ _ hmem
    unfold Store.get_next_sequence
    omega
  · intro store gid h
    unfold Store.get_next_sequence
    rw [h]
    rfl
  · decide

/-- **C7 counterexample.** Deleting the checkpoint that holds the maximum
sequence makes `get_next_sequence` return an already-used number: with stored
sequences {1,2,3}, deleting sequence 3 yields next sequence 3, which was a
sequence of the group before the deletion — refuting "never reused even after
deletions". -/
theorem get_next_sequence_reuse_counterexample :
    (seqExampleStore.delete_snapshot "s3").get_next_sequence "g" = 3 ∧
    3 ∈ (seqExampleStore.get_snapshots "g").map Snapshot.sequence := by
  decide

/-! ### C10: update_settings frame -/

/-- **C10.** After `update_settings`, the stored settings hold exactly the
supplied preferences and auto-verification, the password fields are unchanged
from the previously stored settings, and the connection field is reset to its
default value.  The same settings value is returned to the caller. -/
theorem update_settings_frame (store : Store) (prefs : SettingsPreferences)
    (av : AutoVerification) :
    let out := update_settings_cmd store prefs av
    out.1.settings.preferences = prefs ∧
    out.1.settings.auto_verification = av ∧
    out.1.settings.password_hash = store.settings.password_hash ∧
    out.1.settings.password_skipped = store.settings.password_skipped ∧
    out.1.settings.connection = ConnectionInfo.default ∧
    out.1.groups = store.groups ∧
    out.1.snapshots = store.snapshots ∧
    out.1.history = store.history ∧
    out.1.profiles = store.profiles ∧
    out.2 = out.1.settings := by
  refine ⟨rfl, rfl, rfl, rfl, rfl, rfl, rfl, rfl, rfl, rfl⟩

/-! ### Profile operations (`metadata.rs` store layer, `commands/profiles.rs` command layer) -/

/-- `metadata.rs` `create_profile`: if the new profile is active, first
`UPDATE profiles SET is_active = 0`, then `INSERT INTO profiles ...`. -/
def createProfileStore (profiles : List Profile) (p : Profile) : List Profile :=
  (if p.is_active then profiles.map (fun q => { q with is_active := false }) else profiles) ++ [p]

/-- `metadata.rs` `update_profile`: if the updated profile is active, first
`UPDATE profiles SET is_active = 0 WHERE id != ?`, then
`UPDATE profiles SET ... WHERE id = ?` overwriting every mutable column
(including `is_active`) of the matching row. -/
def updateProfileStore (profiles : List Profile) (p : Profile) : List Profile :=
  profiles.map (fun q =>
    if q.id = p.id then { p with id := q.id, created_at := q.created_at }
    else if p.is_active then { q with is_active := false }
    else q)

/-- `metadata.rs` `delete_profile`: `DELETE FROM profiles WHERE id = ?`. -/
def deleteProfileStore (profiles : List Profile) (profile_id : String) : List Profile :=
  profiles.filter (fun q => ¬ q.id = profile_id)

/-- `metadata.rs` `set_active_profile`: `UPDATE profiles SET is_active = 0`
followed by `UPDATE profiles SET is_active = 1 ... WHERE id = ?` — a
nonexistent id deactivates everything and activates nothing. -/
def setActiveProfileStore (profiles : List Profile) (profile_id : String) : List Profile :=
  profiles.map (fun q =>
    if q.id = profile_id then { q with is_active := true } else { q with is_active := false })

/-- Modelled from the spec: `ensure_active_profile` is called from
`commands/profiles.rs` but its definition is not among the given source
files.  Per §4.1 of the spec it repairs the active-profile invariant: "if no
profile is flagged active and at least one profile exists, flags the first
(by an implementation-defined stable order)"; it is idempotent and a no-op
when some profile is already active. -/
def ensure_active_profile (profiles : List Profile) : List Profile :=
  if profiles.any Profile.is_active then profiles
  else
    match profiles with
    | [] => []
    | p :: rest => { p with is_active := true } :: rest

/-- Arguments of the `create_profile` command (`commands/profiles.rs`).
The fresh UUID is an environment input. -/
structure CreateProfileArgs where
  freshId : String
  name : String
  platformType : String
  host : String
  port : Nat
  username : String
  password : String
  trustCertificate : Bool
  snapshotPath : String
  description : Option String
  notes : Option String
  isActive : Option Bool
  now : Nat

/-- `commands/profiles.rs` `create_profile`: the profile is active if
explicitly requested, else exactly when it is the first profile; after the
insert the command runs `ensure_active_profile`. -/
def create_profile_cmd (profiles : List Profile) (a : CreateProfileArgs) : List Profile :=
  let should_be_active := a.isActive.getD profiles.isEmpty
  let profile : Profile :=
    { id := a.freshId, name := a.name, platform_type := a.platformType, host := a.host,
      port := a.port, username := a.username, password := a.password,
      trust_certificate := a.trustCertificate, snapshot_path := a.snapshotPath,
      description := a.description, notes := a.notes, is_active := should_be_active,
      created_at := a.now, updated_at := a.now }
  ensure_active_profile (createProfileStore profiles profile)

/-- Arguments of the `update_profile` command (`commands/profiles.rs`). -/
structure UpdateProfileArgs where
  profile_id : String
  name : String
  platformType : String
  host : String
  port : Nat
  username : String
  password : Option String
  trustCertificate : Bool
  snapshotPath : String
  description : Option String
  notes : Option String
  isActive : Option Bool
  now : Nat

/-- `commands/profiles.rs` `update_profile`: fails (`none`) when no profile
has the given id; otherwise preserves the password and active flag when not
supplied, updates the row, and runs `ensure_active_profile`. -/
def update_profile_cmd (profiles : List Profile) (a : UpdateProfileArgs) :
    Option (List Profile) :=
  match profiles.find? (fun p => p.id = a.profile_id) with
  | none => none
  | some existing_profile =>
    let password_to_use := a.password.getD existing_profile.password
    let is_active := a.isActive.getD existing_profile.is_active
    let profile : Profile :=
      { id := a.profile_id, name := a.name, platform_type := a.platformType, host := a.host,
        port := a.port, username := a.username, password := password_to_use,
        trust_certificate := a.trustCertificate, snapshot_path := a.snapshotPath,
        description := a.description, notes := a.notes, is_active := is_active,
        created_at := existing_profile.created_at, updated_at := a.now }
    some (ensure_active_profile (updateProfileStore profiles profile))

/-- `commands/profiles.rs` `delete_profile`: delete then `ensure_active_profile`. -/
def delete_profile_cmd (profiles : List Profile) (profile_id : String) : List Profile :=
  ensure_active_profile (deleteProfileStore profiles profile_id)

/-- `commands/profiles.rs` `set_active_profile`: calls the store operation
only — no `ensure_active_profile` repair afterwards. -/
def set_active_profile_cmd (profiles : List Profile) (profile_id : String) : List Profile :=
  setActiveProfileStore profiles profile_id

/-- Number of profiles flagged active. -/
def countActive (profiles : List Profile) : Nat :=
  profiles.countP (fun p => p.is_active)

/-- The active-profile invariant: exactly one active profile whenever at
least one profile exists. -/
def ActiveInv (profiles : List Profile) : Prop :=
  profiles = [] ∨ countActive profiles = 1

/-- With duplicate-free profile ids (the `id` column is the SQLite primary
key), at most one row matches a given id. -/
theorem countP_id_le_one (ps : List Profile)
    (hnodup : (ps.map Profile.id).Nodup) (i : String) :
    ps.countP (fun q => q.id == i) ≤ 1 := by
  have h : ps.countP (fun q => q.id == i) = (ps.map Profile.id).count i := by
    rw [List.count_eq_countP, List.countP_map]
    rfl
  rw [h]
  exact List.nodup_iff_count_le_one.mp hnodup i

/-- `ensure_active_profile` repairs the invariant from any state with at most
one active profile. -/
theorem ensure_active_profile_inv (ps : List Profile) (h : countActive ps ≤ 1) :
    ActiveInv (ensure_active_profile ps) := by
  unfold ensure_active_profile
  by_cases hany : ps.any Profile.is_active
  · rw [if_pos hany]
    rcases List.any_eq_true.mp hany with ⟨x, hx, hpx⟩
    have hpos : 0 < countActive ps := List.countP_pos_iff.mpr ⟨x, hx, hpx⟩
    right
    omega
  · rw [if_neg hany]
    have hzero : countActive ps = 0 := by
      apply List.countP_eq_zero.mpr
      intro a ha hpa
      exact hany (List.any_eq_true.mpr ⟨a, ha, hpa⟩)
    cases ps with
    | nil => left; rfl
    | cons p rest =>
      right
      have hrest : countActive rest = 0 := by
        unfold countActive at hzero ⊢
        rw [List.countP_cons] at hzero
        omega
      unfold countActive at hrest ⊢
      rw [List.countP_cons]
      simp only [hrest]
      rfl

/-- The store-level insert leaves at most one active profile. -/
theorem createProfileStore_le_one (ps : List Profile) (p : Profile)
    (h : countActive ps ≤ 1) : countActive (createProfileStore ps p) ≤ 1 := by
  unfold createProfileStore
  unfold countActive at h ⊢
  by_cases hp : p.is_active
  · rw [if_pos hp, List.countP_append]
    have hz : List.countP (fun r => r.is_active)
        (ps.map (fun q => { q with is_active := false })) = 0 := by
      apply List.countP_eq_zero.mpr
      intro a ha
      rcases List.mem_map.mp ha with ⟨x, _, hxe⟩
      subst hxe
      simp
    rw [hz]
    simp [List.countP_singleton, hp]
  · rw [if_neg hp, List.countP_append]
    simp only [List.countP_singleton]
    simp only [Bool.not_eq_true] at hp
    simp only [hp]
    simp
    exact h

/-- The store-level update leaves at most one active profile (duplicate-free
ids). -/
theorem updateProfileStore_le_one (ps : List Profile) (p : Profile)
    (hnodup : (ps.map Profile.id).Nodup) (h : countActive ps ≤ 1) :
    countActive (updateProfileStore ps p) ≤ 1 := by
  unfold updateProfileStore
  unfold countActive at h ⊢
  rw [List.countP_map]
  by_cases hp : p.is_active
  · have hcongr : ∀ x ∈ ps,
        ((fun r : Profile => r.is_active) ∘ (fun q : Profile =>
          if q.id = p.id then { p with id := q.id, created_at := q.created_at }
          else if p.is_active then { q with is_active := false }
          else q)) x ↔ ((fun q : Profile => q.id == p.id) x : Bool) := by
      intro x _
      by_cases hx : x.id = p.id
      · simp [Function.comp, hx, hp]
      · simp [Function.comp, hx, hp]
    rw [List.countP_congr hcongr]
    exact countP_id_le_one ps hnodup p.id
  · refine le_trans (List.countP_mono_left ?_) h
    intro x _ hx
    simp only [Bool.not_eq_true] at hp
    by_cases hid : x.id = p.id
    · simp [Function.comp, hid, hp] at hx
    · simp [Function.comp, hid, hp] at hx
      exact hx

/-- The store-level delete leaves at most one active profile. -/
theorem deleteProfileStore_le_one (ps : List Profile) (pid : String)
    (h : countActive ps ≤ 1) : countActive (deleteProfileStore ps pid) ≤ 1 := by
  unfold deleteProfileStore
  unfold countActive at h ⊢
  rw [List.countP_filter]
  refine le_trans (List.countP_mono_left ?_) h
  intro x _ hx
  simp at hx
  exact hx.1

/-- The store-level activate flags exactly the rows whose id matches. -/
theorem setActiveProfileStore_count (ps : List Profile) (pid : String) :
    countActive (setActiveProfileStore ps pid) = ps.countP (fun q => q.id == pid) := by
  unfold setActiveProfileStore countActive
  rw [List.countP_map]
  apply List.countP_congr
  intro x _
  by_cases hx : x.id = pid
  · simp [Function.comp, hx]
  · simp [Function.comp, hx]

/-- **C9 (amended).** Starting from a state with duplicate-free profile ids
satisfying the active-profile invariant (exactly one active profile when at
least one exists): the invariant is preserved by `create_profile`, by
`update_profile` whenever it succeeds, by `delete_profile`, and by
`set_active_profile` whenever the given profile id exists; moreover no
operation ever leaves two or more profiles active — but `set_active_profile`
called with a nonexistent id leaves zero profiles flagged active (see the
counterexample). -/
theorem profile_ops_active_inv (ps : List Profile)
    (hnodup : (ps.map Profile.id).Nodup) (hinv : ActiveInv ps) :
    (∀ a : CreateProfileArgs, ActiveInv (create_profile_cmd ps a)) ∧
    (∀ (a : UpdateProfileArgs) (ps2 : List Profile),
        update_profile_cmd ps a = some ps2 → ActiveInv ps2) ∧
    (∀ pid : String, ActiveInv (delete_profile_cmd ps pid)) ∧
    (∀ pid : String, (∃ q ∈ ps, q.id = pid) →
        ActiveInv (set_active_profile_cmd ps pid)) ∧
    (∀ pid : String, countActive (set_active_profile_cmd ps pid) ≤ 1) := by
  have hle : countActive ps ≤ 1 := by
    rcases hinv with h | h
    · rw [h]; exact Nat.zero_le 1
    · omega
  refine ⟨?_, ?_, ?_, ?_, ?_⟩
  · intro a
    exact ensure_active_profile_inv _ (createProfileStore_le_one ps _ hle)
  · intro a ps2 hsome
    unfold update_profile_cmd at hsome
    cases hfind : ps.find? (fun p => p.id = a.profile_id) with
    | none => rw [hfind] at hsome; exact absurd hsome (by simp)
    | some existing =>
      rw [hfind] at hsome
      simp only [Option.some.injEq] at hsome
      subst hsome
      exact ensure_active_profile_inv _ (updateProfileStore_le_one ps _ hnodup hle)
  · intro pid
    exact ensure_active_profile_inv _ (deleteProfileStore_le_one ps pid hle)
  · intro pid hmem
    rcases hmem with ⟨q, hq, hqid⟩
    right
    unfold set_active_profile_cmd
    rw [setActiveProfileStore_count]
    have hpos : 0 < ps.countP (fun q => q.id == pid) := by
      apply List.countP_pos_iff.mpr
      exact ⟨q, hq, by simp [hqid]⟩
    have hle2 := countP_id_le_one ps hnodup pid
    omega
  · intro pid
    unfold set_active_profile_cmd
    rw [setActiveProfileStore_count]
    exact countP_id_le_one ps hnodup pid

/-- A single active profile, used in the C9 scenarios. -/
def exampleProfile : Profile :=
  { id := "p1", name := "Main", platform_type := "Microsoft SQL Server",
    host := "localhost", port := 1433, username := "sa", password := "pw",
    trust_certificate := true, snapshot_path := "/var/opt/mssql/snapshots",
    description := none, notes := none, is_active := true,
    created_at := 0, updated_at := 0 }

/-- **C9 counterexample.** From a good state with one profile (`p1`, active),
`set_active_profile` with the nonexistent id `p2` deactivates everything and
activates nothing: one profile still exists but zero profiles are flagged
active afterwards, violating the invariant as claimed. -/
theorem set_active_profile_missing_id_counterexample :
    countActive [exampleProfile] = 1 ∧
    set_active_profile_cmd [exampleProfile] "p2" ≠ [] ∧
    countActive (set_active_profile_cmd [exampleProfile] "p2") = 0 := by
  refine ⟨by decide, by decide, by decide⟩

/-- Witness for the amended C9 theorem: its hypotheses hold at the one-profile
state and the conclusions apply there. -/
theorem profile_ops_active_inv_witness :
    ([exampleProfile].map Profile.id).Nodup ∧ ActiveInv [exampleProfile] ∧
    ActiveInv (delete_profile_cmd [exampleProfile] "p1") := by
  have h1 : ([exampleProfile].map Profile.id).Nodup := by decide
  have h2 : ActiveInv [exampleProfile] := Or.inr (by decide)
  exact ⟨h1, h2, (profile_ops_active_inv [exampleProfile] h1 h2).2.2.1 "p1"⟩

/-! ### Remote session and the rollback protocol (`commands/snapshots.rs`) -/

/-- The remote control-plane operations issued over a `SqlServerConnection`
(`db/sqlserver.rs`): snapshot creation, snapshot drop, connection eviction
and restore.  The rollback code ignores the outcome of drops and evictions
(best-effort, logged), so only the *requests* are traced. -/
inductive RemoteOp where
  | createSnapshot (database snapshot_name snapshot_path : String)
  | dropSnapshot (snapshot_name : String)
  | killConnections (database : String)
  | restoreFromSnapshot (database snapshot_name : String)
deriving DecidableEq, Repr

/-- Environment of one rollback invocation: the live snapshot objects with
their true source database (`get_snapshots_with_source`), oracles for the
outcome and error text of each fallible remote call whose result the code
branches on, the active profile snapshot path, and the nondeterministic
UUID/timestamp/user inputs. -/
structure RollbackEnv where
  serverSnapshots : List (String × String)
  restoreOk : String → String → Bool
  restoreErr : String → String → String
  createOk : String → String → Bool
  createErr : String → String → String
  snapshot_path : String
  autoId : String
  now : Nat
  user : Option String

/-- `commands/snapshots.rs` `rollback_snapshot` lines 262-285: iterate all
groups, and within each group's snapshots find the one with the requested id,
returning it with its group. -/
def findSnapshotAndGroup (store : Store) (snapshot_id : String) :
    Option (Snapshot × Group) :=
  store.groups.findSome? (fun g =>
    ((store.get_snapshots g.id).find? (fun s => s.id = snapshot_id)).map (fun s => (s, g)))

/-- All snapshot-object names tracked by the group's checkpoints
(`our_snapshot_names`). -/
def ourSnapshotNames (group_snapshots : List Snapshot) : List String :=
  group_snapshots.flatMap (fun s => s.database_snapshots.map DatabaseSnapshot.snapshot_name)

/-- `rollback_snapshot` lines 309-315: live snapshot objects whose source
database belongs to the group but whose name is not tracked for the group. -/
def externalSnapshots (env : RollbackEnv) (store : Store) (group : Group) :
    List String :=
  let group_snapshots := store.get_snapshots group.id
  let our_snapshot_names := ourSnapshotNames group_snapshots
  (env.serverSnapshots.filter (fun ns =>
      !(our_snapshot_names.contains ns.1) && group.databases.contains ns.2)).map Prod.fst

/-- Step 1 of rollback (lines 329-344), remote side: for every *other*
checkpoint of the group, drop each successful snapshot object. -/
def step1Ops (target_id : String) (group_snapshots : List Snapshot) : List RemoteOp :=
  group_snapshots.flatMap (fun other =>
    if other.id = target_id then []
    else (other.database_snapshots.filter DatabaseSnapshot.success).map
      (fun ds => RemoteOp.dropSnapshot ds.snapshot_name))

/-- Step 1 of rollback, metadata side: every other checkpoint's row is
removed (`store.delete_snapshot(&other_snapshot.id)`). -/
def step1Store (target_id : String) (group_snapshots : List Snapshot)
    (store : Store) : Store :=
  group_snapshots.foldl (fun st other =>
    if other.id = target_id then st else st.delete_snapshot other.id) store

/-- Step 2 of rollback (lines 347-389), one database: a checkpoint entry that
failed at creation time is reported as "Original snapshot failed" without any
remote action; otherwise connections are evicted (best-effort) and the
database is restored, recording the outcome. -/
def restoreResult (env : RollbackEnv) (ds : DatabaseSnapshot) : OperationResult :=
  if !ds.success then
    { database := ds.database, success := false, error := some "Original snapshot failed" }
  else if env.restoreOk ds.database ds.snapshot_name then
    { database := ds.database, success := true, error := none }
  else
    { database := ds.database, success := false,
      error := some ("Restore failed: " ++ env.restoreErr ds.database ds.snapshot_name) }

/-- Step 2 results for the whole target checkpoint, in order. -/
def rollbackResults (env : RollbackEnv) (dss : List DatabaseSnapshot) :
    List OperationResult :=
  dss.map (restoreResult env)

/-- Step 2 remote operations: eviction then restore for each successful entry. -/
def step2Ops (dss : List DatabaseSnapshot) : List RemoteOp :=
  dss.flatMap (fun ds =>
    if !ds.success then []
    else [RemoteOp.killConnections ds.database,
          RemoteOp.restoreFromSnapshot ds.database ds.snapshot_name])

/-- `rollback_snapshot` / `create_snapshot`: `group.name.replace(' ', "_")`. -/
def sanitizeGroupName (s : String) : String :=
  s.map (fun c => if c = ' ' then '_' else c)

/-- Name synthesized for the automatic checkpoint of one database (line 443):
`format!("{}_snapshot_{}_{}_auto", database, group.name.replace(' ', "_"), new_sequence)`. -/
def autoSnapshotName (database groupName : String) (sequence : Nat) : String :=
  database ++ "_snapshot_" ++ sanitizeGroupName groupName ++ "_" ++ toString sequence ++ "_auto"

/-- Auto-checkpoint phase (lines 442-481): per-database snapshot records. -/
def autoDatabaseSnapshots (env : RollbackEnv) (group : Group) (new_sequence : Nat) :
    List DatabaseSnapshot :=
  group.databases.map (fun database =>
    let auto_snapshot_name := autoSnapshotName database group.name new_sequence
    if env.createOk database auto_snapshot_name then
      { database := database, snapshot_name := auto_snapshot_name,
        success := true, error := none }
    else
      { database := database, snapshot_name := auto_snapshot_name,
        success := false, error := some (env.createErr database auto_snapshot_name) })

/-- Auto-checkpoint phase: per-database operation results (same outcomes). -/
def autoResults (env : RollbackEnv) (group : Group) (new_sequence : Nat) :
    List OperationResult :=
  group.databases.map (fun database =>
    let auto_snapshot_name := autoSnapshotName database group.name new_sequence
    if env.createOk database auto_snapshot_name then
      { database := database, success := true, error := none }
    else
      { database := database, success := false,
        error := some (env.createErr database auto_snapshot_name) })

/-- Auto-checkpoint phase: the remote create requests. -/
def autoOps (env : RollbackEnv) (group : Group) (new_sequence : Nat) : List RemoteOp :=
  group.databases.map (fun database =>
    RemoteOp.createSnapshot database (autoSnapshotName database group.name new_sequence)
      env.snapshot_path)

/-- `commands/snapshots.rs` `RollbackResult`. -/
structure RollbackResult where
  success : Bool
  databases_restored : Nat
  databases_failed : Nat
  results : List OperationResult
deriving DecidableEq, Repr

/-- The value returned by the `rollback_snapshot` command.  The Rust conflict
error embeds the `Debug` rendering of the whole external-name vector in its
message, so the constructor carries that list; `errWithData` is
`ApiResponse::error_with_data` (error message plus the partial result). -/
inductive RollbackResponse where
  | notFound (snapshot_id : String)
  | externalConflict (external_snapshots : List String)
  | ok (result : RollbackResult)
  | errWithData (message : String) (result : RollbackResult)
deriving DecidableEq, Repr

/-- Full observable outcome of one rollback invocation: response, ordered
trace of requested remote operations, final metadata store. -/
structure RollbackOut where
  response : RollbackResponse
  trace : List RemoteOp
  store : Store
deriving DecidableEq, Repr

/-- `success_count == total_count && total_count > 0` of the source (line
397 for the target-drop gate, line 514 for the result flag — the same
expression). -/
def fullyRestored (env : RollbackEnv) (dss : List DatabaseSnapshot) : Bool :=
  (rollbackResults env dss).countP OperationResult.success == (rollbackResults env dss).length
    && decide (0 < (rollbackResults env dss).length)

/-- Step 3 (lines 397-404), remote side: on full success drop the target's
own successful snapshot objects. -/
def step3Ops (env : RollbackEnv) (snapshot : Snapshot) : List RemoteOp :=
  if fullyRestored env snapshot.database_snapshots then
    (snapshot.database_snapshots.filter DatabaseSnapshot.success).map
      (fun ds => RemoteOp.dropSnapshot ds.snapshot_name)
  else []

/-- Step 3, metadata side: on full success delete the target's row. -/
def step3Store (env : RollbackEnv) (snapshot : Snapshot) (store1 : Store) : Store :=
  if fullyRestored env snapshot.database_snapshots then store1.delete_snapshot snapshot.id
  else store1

/-- Auto-checkpoint phase (lines 430-511), metadata side: the new sequence is
`get_next_sequence` over the store as it stands *after* the rollback's
deletions; the automatic checkpoint row and its history entry are added. -/
def autoStore (env : RollbackEnv) (store4 : Store) (group : Group) : Store :=
  let new_sequence := store4.get_next_sequence group.id
  let auto_snapshot : Snapshot :=
    { id := env.autoId, group_id := group.id, display_name := "Automatic",
      sequence := new_sequence, created_at := env.now, created_by := env.user,
      database_snapshots := autoDatabaseSnapshots env group new_sequence,
      is_automatic := true }
  (store4.add_snapshot auto_snapshot).add_history
    { operation_type := "create_automatic_checkpoint",
      results := some (autoResults env group new_sequence) }

/-- `commands/snapshots.rs` `RollbackResult` as built at lines 513-518:
`success = success_count == total_count && total_count > 0`,
`databases_restored = success_count`,
`databases_failed = total_count - success_count`, plus the full result list. -/
def rollbackResultOf (env : RollbackEnv) (dss : List DatabaseSnapshot) : RollbackResult :=
  { success := (rollbackResults env dss).countP OperationResult.success ==
        (rollbackResults env dss).length && decide (0 < (rollbackResults env dss).length)
    databases_restored := (rollbackResults env dss).countP OperationResult.success
    databases_failed := (rollbackResults env dss).length -
      (rollbackResults env dss).countP OperationResult.success
    results := rollbackResults env dss }

/-- `commands/snapshots.rs` `rollback_snapshot` (lines 244-528) after the
target snapshot and group have been located and the external check passed:
step 1 drops the other checkpoints' objects and rows, step 2 evicts and
restores per database, step 3 consumes the target on full success, a history
entry is logged, the automatic checkpoint is optionally created (gated on
`auto_create_checkpoint && success_count == total_count`), and the result is
built from the per-database results. -/
def rollbackMain (env : RollbackEnv) (store : Store) (snapshot : Snapshot)
    (group : Group) : RollbackOut :=
  let group_snapshots := store.get_snapshots group.id
  let results := rollbackResults env snapshot.database_snapshots
  let success_count := results.countP OperationResult.success
  let total_count := results.length
  let store1 := step1Store snapshot.id group_snapshots store
  let store3 := step3Store env snapshot store1
  let store4 := store3.add_history { operation_type := "rollback", results := some results }
  let afterAuto :=
    if store4.settings.preferences.auto_create_checkpoint && success_count == total_count then
      (autoStore env store4 group, autoOps env group (store4.get_next_sequence group.id))
    else (store4, ([] : List RemoteOp))
  let result := rollbackResultOf env snapshot.database_snapshots
  { response :=
      if result.success then RollbackResponse.ok result
      else RollbackResponse.errWithData
        ("Rollback failed: " ++ toString success_count ++ "/" ++ toString total_count
          ++ " databases restored") result
    trace := step1Ops snapshot.id group_snapshots ++ step2Ops snapshot.database_snapshots
      ++ step3Ops env snapshot ++ afterAuto.2
    store := afterAuto.1 }

/-- `commands/snapshots.rs` `rollback_snapshot`, from the point where the
store, config, active profile and connection have been obtained: locate the
target snapshot and its group, abort on external snapshots, otherwise run the
main protocol. -/
def rollback_snapshot (env : RollbackEnv) (store : Store) (snapshot_id : String) :
    RollbackOut :=
  match findSnapshotAndGroup store snapshot_id with
  | none => { response := .notFound snapshot_id, trace := [], store := store }
  | some (snapshot, group) =>
    let external_snapshots := externalSnapshots env store group
    if external_snapshots ≠ [] then
      { response := .externalConflict external_snapshots, trace := [], store := store }
    else rollbackMain env store snapshot group

/-! ### C1: external-snapshot conflict aborts rollback before any effect -/

/-- Membership characterization of the external set: exactly the live server
objects whose true source database is a group member and whose name is not
tracked in the group's checkpoint metadata. -/
theorem externalSnapshots_mem (env : RollbackEnv) (store : Store) (group : Group)
    (name : String) :
    name ∈ externalSnapshots env store group ↔
      ∃ src, (name, src) ∈ env.serverSnapshots ∧ src ∈ group.databases ∧
        name ∉ ourSnapshotNames (store.get_snapshots group.id) := by
  unfold externalSnapshots
  simp only [List.mem_map, List.mem_filter, Bool.and_eq_true, Bool.not_eq_true']
  constructor
  · rintro ⟨⟨n, src⟩, ⟨hmem, hnotours, hindb⟩, hfst⟩
    subst hfst
    refine ⟨src, hmem, ?_, ?_⟩
    · simpa using hindb
    · simpa using hnotours
  · rintro ⟨src, hmem, hindb, hnotours⟩
    refine ⟨(name, src), ⟨hmem, ?_, ?_⟩, rfl⟩
    · simpa using hnotours
    · simpa using hindb

/-- **C1.** If the external-snapshot set of the target's group is non-empty,
the whole rollback aborts with a conflict error carrying every external
object name, with no remote operation requested (no drop, no eviction, no
restore) and the metadata store untouched (no row created, updated or
deleted). -/
theorem rollback_external_conflict_aborts (env : RollbackEnv) (store : Store)
    (snapshot_id : String) (snapshot : Snapshot) (group : Group)
    (hfind : findSnapshotAndGroup store snapshot_id = some (snapshot, group))
    (hext : externalSnapshots env store group ≠ []) :
    rollback_snapshot env store snapshot_id =
      { response := RollbackResponse.externalConflict (externalSnapshots env store group),
        trace := [], store := store } := by
  unfold rollback_snapshot
  rw [hfind]
  exact if_pos hext

/-- Group of the C1 scenario. -/
def conflictGroup : Group :=
  { id := "g", name := "Sales Group", databases := ["sales"],
    profile_id := some "p1", created_by := none, created_at := 0, updated_at := 0 }

/-- Tracked checkpoint of the C1 scenario. -/
def conflictSnapshot : Snapshot :=
  { id := "snapA", group_id := "g", display_name := "Snapshot 1", sequence := 1,
    created_at := 0, created_by := none,
    database_snapshots :=
      [ { database := "sales", snapshot_name := "sales_snap_1",
          success := true, error := none } ],
    is_automatic := false }

/-- Concrete C1 scenario: group `g` over database `sales` tracks only
`sales_snap_1`, while the server also holds `sales_snap_9` sourced from
`sales`. -/
def conflictStore : Store :=
  { groups := [conflictGroup]
    snapshots := [conflictSnapshot]
    history := []
    settings := { preferences := { default_group := "", max_history_entries := 100,
                                   auto_create_checkpoint := false }
                  auto_verification := { enabled := false, interval_minutes := 15 }
                  connection := ConnectionInfo.default
                  password_hash := none, password_skipped := false }
    profiles := [] }

/-- Environment for the C1 scenario: the server holds the tracked object and
one external object for a group member database. -/
def conflictEnv : RollbackEnv :=
  { serverSnapshots := [("sales_snap_1", "sales"), ("sales_snap_9", "sales")]
    restoreOk := fun _ _ => true
    restoreErr := fun _ _ => ""
    createOk := fun _ _ => true
    createErr := fun _ _ => ""
    snapshot_path := "/var/opt/mssql/snapshots"
    autoId := "auto-id", now := 1, user := none }

/-- Witness for C1: at the concrete conflict scenario the hypotheses hold and
the rollback returns the conflict error listing exactly `sales_snap_9`, with
an empty remote trace and an unchanged store. -/
theorem rollback_external_conflict_aborts_witness :
    externalSnapshots conflictEnv conflictStore conflictGroup = ["sales_snap_9"] ∧
    rollback_snapshot conflictEnv conflictStore "snapA" =
      { response := RollbackResponse.externalConflict ["sales_snap_9"],
        trace := [], store := conflictStore } := by
  have hfind : findSnapshotAndGroup conflictStore "snapA" =
      some (conflictSnapshot, conflictGroup) := by decide
  have hext : externalSnapshots conflictEnv conflictStore conflictGroup =
      ["sales_snap_9"] := by decide
  refine ⟨hext, ?_⟩
  have h := rollback_external_conflict_aborts conflictEnv conflictStore "snapA"
    conflictSnapshot conflictGroup hfind (by rw [hext]; decide)
  rw [h, hext]

/-! ### C8: verify -/

/-- `commands/snapshots.rs` `VerificationResult`. -/
structure VerificationResult where
  verified : Bool
  orphaned_snapshots : List String
  stale_metadata : List String
deriving DecidableEq, Repr

/-- `commands/snapshots.rs` `verify_snapshots` (lines 533-606), from the point
where store, profile and connection have been obtained.  Stale: tracked and
successful snapshot names with no live object of that name.  Orphaned (only
when the group row exists): live objects whose source database is a group
member and whose name no tracked checkpoint references. -/
def verify_snapshots (serverSnapshots : List (String × String)) (store : Store)
    (group_id : String) : VerificationResult :=
  let metadata_snapshots := store.get_snapshots group_id
  let server_snapshot_names := serverSnapshots.map Prod.fst
  let stale := metadata_snapshots.flatMap (fun snapshot =>
    (snapshot.database_snapshots.filter (fun ds =>
        ds.success && !(server_snapshot_names.contains ds.snapshot_name))).map
      DatabaseSnapshot.snapshot_name)
  let metadata_names := ourSnapshotNames metadata_snapshots
  let orphaned :=
    match store.groups.find? (fun g => g.id = group_id) with
    | some group =>
      (serverSnapshots.filter (fun ns =>
          group.databases.contains ns.2 && !(metadata_names.contains ns.1))).map Prod.fst
    | none => []
  { verified := orphaned.isEmpty && stale.isEmpty
    orphaned_snapshots := orphaned
    stale_metadata := stale }

/-- **C8.** For every verify invocation whose group row exists: the stale list
holds exactly the names of tracked, successful DatabaseSnapshot entries with
no matching live object; the orphaned list holds exactly the live objects
whose true source database is a group member but whose name no tracked
checkpoint of the group references; and `verified` is true iff both are
empty. -/
theorem verify_snapshots_spec (server : List (String × String)) (store : Store)
    (group_id : String) (group : Group)
    (hfind : store.groups.find? (fun g => g.id = group_id) = some group) :
    (∀ name, name ∈ (verify_snapshots server store group_id).stale_metadata ↔
      ∃ s ∈ store.get_snapshots group_id, ∃ ds ∈ s.database_snapshots,
        ds.success ∧ ds.snapshot_name = name ∧ ¬ name ∈ server.map Prod.fst) ∧
    (∀ name, name ∈ (verify_snapshots server store group_id).orphaned_snapshots ↔
      ∃ src, (name, src) ∈ server ∧ src ∈ group.databases ∧
        ¬ name ∈ ourSnapshotNames (store.get_snapshots group_id)) ∧
    ((verify_snapshots server store group_id).verified = true ↔
      (verify_snapshots server store group_id).orphaned_snapshots = [] ∧
      (verify_snapshots server store group_id).stale_metadata = []) := by
  unfold verify_snapshots
  rw [hfind]
  refine ⟨?_, ?_, ?_⟩
  · intro name
    simp only [List.mem_flatMap, List.mem_map, List.mem_filter, Bool.and_eq_true,
      Bool.not_eq_true']
    constructor
    · rintro ⟨s, hs, ds, ⟨hds, hsucc, hncontains⟩, hname⟩
      subst hname
      exact ⟨s, hs, ds, hds, by simpa using hsucc, rfl, by simpa using hncontains⟩
    · rintro ⟨s, hs, ds, hds, hsucc, hname, hnin⟩
      subst hname
      exact ⟨s, hs, ds, ⟨hds, by simpa using hsucc, by simpa using hnin⟩, rfl⟩
  · intro name
    simp only [List.mem_map, List.mem_filter, Bool.and_eq_true, Bool.not_eq_true']
    constructor
    · rintro ⟨⟨n, src⟩, ⟨hmem, hindb, hncont⟩, hfst⟩
      subst hfst
      exact ⟨src, hmem, by simpa using hindb, by simpa using hncont⟩
    · rintro ⟨src, hmem, hindb, hnin⟩
      exact ⟨(name, src), ⟨hmem, by simpa using hindb, by simpa using hnin⟩, rfl⟩
  · simp [List.isEmpty_iff, and_comm]

/-- Store for the C8 scenario of the spec: metadata references `sales_snap_3`
(successful) for group `g` over database `sales`. -/
def verifyStore : Store :=
  { groups := [conflictGroup]
    snapshots :=
      [ { id := "snap3", group_id := "g", display_name := "Snapshot 3", sequence := 3,
          created_at := 0, created_by := none,
          database_snapshots :=
            [ { database := "sales", snapshot_name := "sales_snap_3",
                success := true, error := none } ],
          is_automatic := false } ]
    history := []
    settings := { preferences := { default_group := "", max_history_entries := 100,
                                   auto_create_checkpoint := false }
                  auto_verification := { enabled := false, interval_minutes := 15 }
                  connection := ConnectionInfo.default
                  password_hash := none, password_skipped := false }
    profiles := [] }

/-- Witness for C8, matching the spec scenario: server has only an untracked
`sales_snap_9` sourced from `sales`; the result is
`stale=[sales_snap_3]`, `orphaned=[sales_snap_9]`, `verified=false`, and the
theorem applies at this input. -/
theorem verify_snapshots_spec_witness :
    verify_snapshots [("sales_snap_9", "sales")] verifyStore "g" =
      { verified := false, orphaned_snapshots := ["sales_snap_9"],
        stale_metadata := ["sales_snap_3"] } ∧
    ("sales_snap_3" ∈ (verify_snapshots [("sales_snap_9", "sales")] verifyStore "g").stale_metadata ↔
      ∃ s ∈ verifyStore.get_snapshots "g", ∃ ds ∈ s.database_snapshots,
        ds.success ∧ ds.snapshot_name = "sales_snap_3" ∧
        ¬ "sales_snap_3" ∈ ([("sales_snap_9", "sales")] : List (String × String)).map Prod.fst) := by
  refine ⟨by decide, ?_⟩
  exact (verify_snapshots_spec [("sales_snap_9", "sales")] verifyStore "g"
    conflictGroup (by decide)).1 "sales_snap_3"

/-! ### Structural lemmas about the rollback phases -/

/-- Deleting a snapshot row keeps exactly the rows with a different id. -/
theorem mem_delete_snapshot (st : Store) (i : String) (s : Snapshot) :
    s ∈ (st.delete_snapshot i).snapshots ↔ s ∈ st.snapshots ∧ ¬ s.id = i := by
  simp [Store.delete_snapshot, List.mem_filter]

/-- Step 1 unfolds on a cons cell. -/
theorem step1Store_cons (tid : String) (g : Snapshot) (t : List Snapshot) (st : Store) :
    step1Store tid (g :: t) st =
      step1Store tid t (if g.id = tid then st else st.delete_snapshot g.id) := rfl

/-- Step 1 does not touch the settings row. -/
theorem step1Store_settings (tid : String) (gs : List Snapshot) (st : Store) :
    (step1Store tid gs st).settings = st.settings := by
  induction gs generalizing st with
  | nil => rfl
  | cons g t ih =>
    rw [step1Store_cons]
    rw [ih]
    by_cases h : g.id = tid
    · rw [if_pos h]
    · rw [if_neg h]; rfl

/-- Membership in the store after step 1: the rows of the initial store whose
id is not among the deleted other-checkpoint ids. -/
theorem mem_step1Store (tid : String) (gs : List Snapshot) (st : Store) (s : Snapshot) :
    s ∈ (step1Store tid gs st).snapshots ↔
      s ∈ st.snapshots ∧ ∀ g ∈ gs, g.id = tid ∨ ¬ s.id = g.id := by
  induction gs generalizing st with
  | nil => simp [step1Store]
  | cons g t ih =>
    rw [step1Store_cons, ih]
    by_cases hg : g.id = tid
    · rw [if_pos hg]
      constructor
      · rintro ⟨hs, hall⟩
        refine ⟨hs, ?_⟩
        intro x hx
        rcases List.mem_cons.mp hx with rfl | hx
        · exact Or.inl hg
        · exact hall x hx
      · rintro ⟨hs, hall⟩
        exact ⟨hs, fun x hx => hall x (List.mem_cons_of_mem _ hx)⟩
    · rw [if_neg hg, mem_delete_snapshot]
      constructor
      · rintro ⟨⟨hs, hid⟩, hall⟩
        refine ⟨hs, ?_⟩
        intro x hx
        rcases List.mem_cons.mp hx with rfl | hx
        · exact Or.inr hid
        · exact hall x hx
      · rintro ⟨hs, hall⟩
        refine ⟨⟨hs, ?_⟩, fun x hx => hall x (List.mem_cons_of_mem _ hx)⟩
        rcases hall g (List.mem_cons_self g t) with h | h
        · exact absurd h hg
        · exact h

/-- Step 1 remote trace: exactly the drops of the successful entries of the
other checkpoints. -/
theorem mem_step1Ops (tid : String) (gs : List Snapshot) (op : RemoteOp) :
    op ∈ step1Ops tid gs ↔
      ∃ other ∈ gs, ¬ other.id = tid ∧ ∃ ds ∈ other.database_snapshots,
        ds.success = true ∧ op = RemoteOp.dropSnapshot ds.snapshot_name := by
  unfold step1Ops
  simp only [List.mem_flatMap]
  constructor
  · rintro ⟨other, hother, hop⟩
    by_cases h : other.id = tid
    · rw [if_pos h] at hop; cases hop
    · rw [if_neg h] at hop
      rcases List.mem_map.mp hop with ⟨ds, hds, hfst⟩
      rcases List.mem_filter.mp hds with ⟨hds2, hsucc⟩
      exact ⟨other, hother, h, ds, hds2, hsucc, hfst.symm⟩
  · rintro ⟨other, hother, hne, ds, hds, hsucc, rfl⟩
    refine ⟨other, hother, ?_⟩
    rw [if_neg hne]
    exact List.mem_map.mpr ⟨ds, List.mem_filter.mpr ⟨hds, hsucc⟩, rfl⟩

/-- Step 2 remote trace: eviction and restore requests for exactly the
successful target entries. -/
theorem mem_step2Ops (dss : List DatabaseSnapshot) (op : RemoteOp) :
    op ∈ step2Ops dss ↔ ∃ ds ∈ dss, ds.success = true ∧
      (op = RemoteOp.killConnections ds.database ∨
       op = RemoteOp.restoreFromSnapshot ds.database ds.snapshot_name) := by
  unfold step2Ops
  simp only [List.mem_flatMap]
  constructor
  · rintro ⟨ds, hds, hop⟩
    by_cases h : ds.success = true
    · simp only [h, Bool.not_true] at hop
      simp only [Bool.false_eq_true, if_false, List.mem_cons, List.mem_singleton,
        List.not_mem_nil, or_false] at hop
      exact ⟨ds, hds, h, hop⟩
    · simp only [Bool.not_eq_true] at h
      simp [h] at hop
  · rintro ⟨ds, hds, hsucc, hop⟩
    refine ⟨ds, hds, ?_⟩
    simp only [hsucc, Bool.not_true, Bool.false_eq_true, if_false, List.mem_cons,
      List.mem_singleton, List.not_mem_nil, or_false]
    exact hop

/-- The per-database results are in bijection with the target entries. -/
theorem rollbackResults_length (env : RollbackEnv) (dss : List DatabaseSnapshot) :
    (rollbackResults env dss).length = dss.length := by
  simp [rollbackResults]

/-- A target entry that failed at creation time yields the hard failure. -/
theorem restoreResult_of_failed (env : RollbackEnv) (ds : DatabaseSnapshot)
    (h : ds.success = false) :
    restoreResult env ds =
      { database := ds.database, success := false,
        error := some "Original snapshot failed" } := by
  unfold restoreResult
  rw [h]
  rfl

/-- Bridging lemma: with the target located and no external snapshot, the
command runs the main protocol. -/
theorem rollback_snapshot_no_external (env : RollbackEnv) (store : Store)
    (snapshot_id : String) (snapshot : Snapshot) (group : Group)
    (hfind : findSnapshotAndGroup store snapshot_id = some (snapshot, group))
    (hext : externalSnapshots env store group = []) :
    rollback_snapshot env store snapshot_id = rollbackMain env store snapshot group := by
  unfold rollback_snapshot
  rw [hfind]
  exact if_neg (by simp [hext])

/-- Response of the main protocol, by unfolding. -/
theorem rollbackMain_response (env : RollbackEnv) (store : Store) (snapshot : Snapshot)
    (group : Group) :
    (rollbackMain env store snapshot group).response =
      (if (rollbackResultOf env snapshot.database_snapshots).success = true then
        RollbackResponse.ok (rollbackResultOf env snapshot.database_snapshots)
      else
        RollbackResponse.errWithData
          ("Rollback failed: " ++
            toString ((rollbackResults env snapshot.database_snapshots).countP
              OperationResult.success) ++ "/" ++
            toString (rollbackResults env snapshot.database_snapshots).length
            ++ " databases restored")
          (rollbackResultOf env snapshot.database_snapshots)) := rfl

/-- Trace of the main protocol, by unfolding. -/
theorem rollbackMain_trace (env : RollbackEnv) (store : Store) (snapshot : Snapshot)
    (group : Group) :
    (rollbackMain env store snapshot group).trace =
      step1Ops snapshot.id (store.get_snapshots group.id)
        ++ step2Ops snapshot.database_snapshots
        ++ step3Ops env snapshot
        ++ (if ((step3Store env snapshot (step1Store snapshot.id
                (store.get_snapshots group.id) store)).add_history
              { operation_type := "rollback",
                results := some (rollbackResults env snapshot.database_snapshots) }
              ).settings.preferences.auto_create_checkpoint &&
              (rollbackResults env snapshot.database_snapshots).countP
                OperationResult.success ==
              (rollbackResults env snapshot.database_snapshots).length then
            autoOps env group (((step3Store env snapshot (step1Store snapshot.id
                (store.get_snapshots group.id) store)).add_history
              { operation_type := "rollback",
                results := some (rollbackResults env snapshot.database_snapshots) }
              ).get_next_sequence group.id)
          else []) := by
  simp only [rollbackMain]
  by_cases h : ((step3Store env snapshot (step1Store snapshot.id
        (store.get_snapshots group.id) store)).add_history
      { operation_type := "rollback",
        results := some (rollbackResults env snapshot.database_snapshots) }
      ).settings.preferences.auto_create_checkpoint &&
      (rollbackResults env snapshot.database_snapshots).countP OperationResult.success ==
      (rollbackResults env snapshot.database_snapshots).length
  · simp only [if_pos h]
  · simp only [if_neg h]

/-- Final store of the main protocol, by unfolding. -/
theorem rollbackMain_store (env : RollbackEnv) (store : Store) (snapshot : Snapshot)
    (group : Group) :
    (rollbackMain env store snapshot group).store =
      (if ((step3Store env snapshot (step1Store snapshot.id
              (store.get_snapshots group.id) store)).add_history
            { operation_type := "rollback",
              results := some (rollbackResults env snapshot.database_snapshots) }
            ).settings.preferences.auto_create_checkpoint &&
            (rollbackResults env snapshot.database_snapshots).countP
              OperationResult.success ==
            (rollbackResults env snapshot.database_snapshots).length then
          autoStore env ((step3Store env snapshot (step1Store snapshot.id
              (store.get_snapshots group.id) store)).add_history
            { operation_type := "rollback",
              results := some (rollbackResults env snapshot.database_snapshots) }) group
        else ((step3Store env snapshot (step1Store snapshot.id
              (store.get_snapshots group.id) store)).add_history
            { operation_type := "rollback",
              results := some (rollbackResults env snapshot.database_snapshots) })) := by
  simp only [rollbackMain]
  by_cases h : ((step3Store env snapshot (step1Store snapshot.id
        (store.get_snapshots group.id) store)).add_history
      { operation_type := "rollback",
        results := some (rollbackResults env snapshot.database_snapshots) }
      ).settings.preferences.auto_create_checkpoint &&
      (rollbackResults env snapshot.database_snapshots).countP OperationResult.success ==
      (rollbackResults env snapshot.database_snapshots).length
  · simp only [if_pos h]
  · simp only [if_neg h]

/-! ### C3: shape of the rollback result -/

/-- **C3.** For every rollback invocation that reaches the per-database
restore phase, the returned result satisfies `success = (every database of
the target checkpoint produced a successful restore result) AND (the
checkpoint contained at least one database)`, `databases_restored` counts the
successful per-database results, `databases_failed` counts the failed ones,
and the full per-database result list is returned to the caller whether the
overall operation succeeded (`ok`) or not (`errWithData`). -/
theorem rollback_result_shape (env : RollbackEnv) (store : Store)
    (snapshot_id : String) (snapshot : Snapshot) (group : Group)
    (hfind : findSnapshotAndGroup store snapshot_id = some (snapshot, group))
    (hext : externalSnapshots env store group = []) :
    ∃ result : RollbackResult,
      ((rollback_snapshot env store snapshot_id).response = RollbackResponse.ok result ∨
        ∃ msg, (rollback_snapshot env store snapshot_id).response =
          RollbackResponse.errWithData msg result) ∧
      result.results = rollbackResults env snapshot.database_snapshots ∧
      result.databases_restored =
        (rollbackResults env snapshot.database_snapshots).countP OperationResult.success ∧
      result.databases_failed =
        (rollbackResults env snapshot.database_snapshots).countP (fun r => !r.success) ∧
      (result.success = true ↔
        ((∀ ds ∈ snapshot.database_snapshots, (restoreResult env ds).success = true) ∧
          snapshot.database_snapshots ≠ [])) ∧
      ((rollback_snapshot env store snapshot_id).response = RollbackResponse.ok result ↔
        result.success = true) := by
  rw [rollback_snapshot_no_external env store snapshot_id snapshot group hfind hext,
    rollbackMain_response]
  refine ⟨rollbackResultOf env snapshot.database_snapshots, ?_, rfl, rfl, ?_, ?_, ?_⟩
  · by_cases h : (rollbackResultOf env snapshot.database_snapshots).success = true
    · left; rw [if_pos h]
    · right; exact ⟨_, if_neg h⟩
  · show (rollbackResults env snapshot.database_snapshots).length -
        (rollbackResults env snapshot.database_snapshots).countP OperationResult.success =
        (rollbackResults env snapshot.database_snapshots).countP (fun r => !r.success)
    have hsplit := @List.length_eq_countP_add_countP _ OperationResult.success
      (rollbackResults env snapshot.database_snapshots)
    have hcongr : (rollbackResults env snapshot.database_snapshots).countP
        (fun a => decide ¬ (OperationResult.success a = true)) =
        (rollbackResults env snapshot.database_snapshots).countP (fun r => !r.success) := by
      apply List.countP_congr
      intro x _
      simp
    omega
  · show ((rollbackResults env snapshot.database_snapshots).countP OperationResult.success ==
        (rollbackResults env snapshot.database_snapshots).length &&
        decide (0 < (rollbackResults env snapshot.database_snapshots).length)) = true ↔ _
    rw [Bool.and_eq_true, beq_iff_eq, decide_eq_true_eq]
    constructor
    · rintro ⟨hcount, hpos⟩
      have hall := List.countP_eq_length.mp hcount
      constructor
      · intro ds hds
        exact hall (restoreResult env ds)
          (List.mem_map.mpr ⟨ds, hds, rfl⟩)
      · intro hnil
        rw [hnil] at hpos
        simp [rollbackResults] at hpos
    · rintro ⟨hall, hne⟩
      constructor
      · apply List.countP_eq_length.mpr
        intro r hr
        rcases List.mem_map.mp hr with ⟨ds, hds, hr2⟩
        subst hr2
        exact hall ds hds
      · rw [rollbackResults_length]
        exact List.length_pos.mpr hne
  · by_cases h : (rollbackResultOf env snapshot.database_snapshots).success = true
    · rw [if_pos h]; simp [h]
    · rw [if_neg h]; simp [h]

/-- Group of the partial-rollback scenario: two databases `A` and `B`. -/
def rbGroup : Group :=
  { id := "g2", name := "Two DB", databases := ["A", "B"], profile_id := some "p1",
    created_by := none, created_at := 0, updated_at := 0 }

/-- Earlier complete checkpoint of the scenario (sequence 1). -/
def rbOther : Snapshot :=
  { id := "o", group_id := "g2", display_name := "Older", sequence := 1,
    created_at := 0, created_by := none,
    database_snapshots :=
      [ { database := "A", snapshot_name := "A_snapshot_Two_DB_1", success := true, error := none }
      , { database := "B", snapshot_name := "B_snapshot_Two_DB_1", success := true, error := none } ],
    is_automatic := false }

/-- Target checkpoint of the scenario (sequence 2): database `A` succeeded,
database `B` failed at creation time. -/
def rbTarget : Snapshot :=
  { id := "t", group_id := "g2", display_name := "Target", sequence := 2,
    created_at := 0, created_by := none,
    database_snapshots :=
      [ { database := "A", snapshot_name := "A_snapshot_Two_DB_2", success := true, error := none }
      , { database := "B", snapshot_name := "B_snapshot_Two_DB_2", success := false,
          error := some "disk full" } ],
    is_automatic := false }

/-- Store of the partial-rollback scenario. -/
def rbStore : Store :=
  { groups := [rbGroup]
    snapshots := [rbOther, rbTarget]
    history := []
    settings := { preferences := { default_group := "", max_history_entries := 100,
                                   auto_create_checkpoint := false }
                  auto_verification := { enabled := false, interval_minutes := 15 }
                  connection := ConnectionInfo.default
                  password_hash := none, password_skipped := false }
    profiles := [] }

/-- Environment of the partial-rollback scenario: no live external objects,
every attempted restore succeeds. -/
def rbEnv : RollbackEnv :=
  { serverSnapshots := [("A_snapshot_Two_DB_2", "A"), ("A_snapshot_Two_DB_1", "A"),
      ("B_snapshot_Two_DB_1", "B")]
    restoreOk := fun _ _ => true
    restoreErr := fun _ _ => ""
    createOk := fun _ _ => true
    createErr := fun _ _ => ""
    snapshot_path := "/var/opt/mssql/snapshots"
    autoId := "auto-id", now := 7, user := none }

/-- Witness for C3: the hypotheses hold at the partial scenario, and the
theorem applies there (overall failure: 1 of 2 databases restored). -/
theorem rollback_result_shape_witness :
    findSnapshotAndGroup rbStore "t" = some (rbTarget, rbGroup) ∧
    externalSnapshots rbEnv rbStore rbGroup = [] ∧
    (∃ result : RollbackResult,
      ((rollback_snapshot rbEnv rbStore "t").response = RollbackResponse.ok result ∨
        ∃ msg, (rollback_snapshot rbEnv rbStore "t").response =
          RollbackResponse.errWithData msg result) ∧
      result.results = rollbackResults rbEnv rbTarget.database_snapshots ∧
      result.databases_restored =
        (rollbackResults rbEnv rbTarget.database_snapshots).countP OperationResult.success ∧
      result.databases_failed =
        (rollbackResults rbEnv rbTarget.database_snapshots).countP (fun r => !r.success) ∧
      (result.success = true ↔
        ((∀ ds ∈ rbTarget.database_snapshots, (restoreResult rbEnv ds).success = true) ∧
          rbTarget.database_snapshots ≠ [])) ∧
      ((rollback_snapshot rbEnv rbStore "t").response = RollbackResponse.ok result ↔
        result.success = true)) := by
  refine ⟨by decide, by decide, ?_⟩
  exact rollback_result_shape rbEnv rbStore "t" rbTarget rbGroup (by decide) (by decide)

/-! ### C2: failed original snapshots are skipped; target kept on failure -/

/-- Locating the target yields a row of the store, with the requested id,
belonging to the returned group. -/
theorem findSnapshotAndGroup_mem (store : Store) (sid : String) (snapshot : Snapshot)
    (group : Group) (h : findSnapshotAndGroup store sid = some (snapshot, group)) :
    snapshot ∈ store.snapshots ∧ snapshot.id = sid ∧ snapshot.group_id = group.id ∧
      group ∈ store.groups := by
  unfold findSnapshotAndGroup at h
  rcases List.exists_of_findSome?_eq_some h with ⟨g, hg, hfg⟩
  rcases Option.map_eq_some'.mp hfg with ⟨s, hsfind, hpair⟩
  injection hpair with h1 h2
  subst h1
  subst h2
  have hpred := List.find?_some hsfind
  have hmem := List.mem_of_find?_eq_some hsfind
  rcases List.mem_filter.mp hmem with ⟨hmem2, hgid⟩
  refine ⟨hmem2, by simpa using hpred, by simpa using hgid, hg⟩

/-- Step 3 only requests drops. -/
theorem step3Ops_shape (env : RollbackEnv) (snapshot : Snapshot) (op : RemoteOp)
    (h : op ∈ step3Ops env snapshot) : ∃ nm, op = RemoteOp.dropSnapshot nm := by
  unfold step3Ops at h
  by_cases hf : fullyRestored env snapshot.database_snapshots = true
  · rw [if_pos hf] at h
    rcases List.mem_map.mp h with ⟨ds, _, hop⟩
    exact ⟨ds.snapshot_name, hop.symm⟩
  · rw [if_neg hf] at h
    cases h

/-- The auto phase only requests creates. -/
theorem autoOps_shape (env : RollbackEnv) (group : Group) (seq : Nat) (op : RemoteOp)
    (h : op ∈ autoOps env group seq) :
    ∃ db nm p, op = RemoteOp.createSnapshot db nm p := by
  unfold autoOps at h
  rcases List.mem_map.mp h with ⟨db, _, hop⟩
  exact ⟨db, autoSnapshotName db group.name seq, env.snapshot_path, hop.symm⟩

/-- `fullyRestored` decoded. -/
theorem fullyRestored_iff (env : RollbackEnv) (dss : List DatabaseSnapshot) :
    fullyRestored env dss = true ↔
      ((rollbackResults env dss).countP OperationResult.success =
        (rollbackResults env dss).length ∧ 0 < (rollbackResults env dss).length) := by
  unfold fullyRestored
  rw [Bool.and_eq_true, beq_iff_eq, decide_eq_true_eq]

/-- **C2.** In the restore phase, every target entry with `success=false` is
reported as failed with error text "Original snapshot failed"; every eviction
or restore request in the whole remote trace stems from a successful target
entry (so a database whose entry failed at creation time is never evicted or
restored); every successful entry is still attempted (its restore request is
in the trace) independently of the others; and if any per-database result
failed, the target checkpoint row survives in the final store. -/
theorem rollback_skips_failed_entries (env : RollbackEnv) (store : Store)
    (snapshot_id : String) (snapshot : Snapshot) (group : Group)
    (hfind : findSnapshotAndGroup store snapshot_id = some (snapshot, group))
    (hext : externalSnapshots env store group = []) :
    ∃ result : RollbackResult,
      ((rollback_snapshot env store snapshot_id).response = RollbackResponse.ok result ∨
        ∃ msg, (rollback_snapshot env store snapshot_id).response =
          RollbackResponse.errWithData msg result) ∧
      (∀ ds ∈ snapshot.database_snapshots, ds.success = false →
        ({ database := ds.database, success := false,
           error := some "Original snapshot failed" } : OperationResult) ∈ result.results) ∧
      (∀ db, RemoteOp.killConnections db ∈ (rollback_snapshot env store snapshot_id).trace →
        ∃ ds ∈ snapshot.database_snapshots, ds.success = true ∧ ds.database = db) ∧
      (∀ db nm,
        RemoteOp.restoreFromSnapshot db nm ∈ (rollback_snapshot env store snapshot_id).trace →
        ∃ ds ∈ snapshot.database_snapshots, ds.success = true ∧ ds.database = db ∧
          ds.snapshot_name = nm) ∧
      (∀ ds ∈ snapshot.database_snapshots, ds.success = true →
        RemoteOp.restoreFromSnapshot ds.database ds.snapshot_name ∈
          (rollback_snapshot env store snapshot_id).trace) ∧
      ((∃ r ∈ result.results, r.success = false) →
        snapshot ∈ (rollback_snapshot env store snapshot_id).store.snapshots) := by
  rw [rollback_snapshot_no_external env store snapshot_id snapshot group hfind hext]
  refine ⟨rollbackResultOf env snapshot.database_snapshots, ?_, ?_, ?_, ?_, ?_, ?_⟩
  · rw [rollbackMain_response]
    by_cases h : (rollbackResultOf env snapshot.database_snapshots).success = true
    · left; rw [if_pos h]
    · right; exact ⟨_, if_neg h⟩
  · intro ds hds hfail
    show _ ∈ rollbackResults env snapshot.database_snapshots
    rw [← restoreResult_of_failed env ds hfail]
    exact List.mem_map.mpr ⟨ds, hds, rfl⟩
  · intro db hop
    rw [rollbackMain_trace] at hop
    simp only [List.mem_append] at hop
    rcases hop with ((h1 | h2) | h3) | h4
    · rcases (mem_step1Ops _ _ _).mp h1 with ⟨_, _, _, _, _, _, hop⟩
      cases hop
    · rcases (mem_step2Ops _ _).mp h2 with ⟨ds, hds, hsucc, hor⟩
      rcases hor with h | h
      · injection h with hdb
        exact ⟨ds, hds, hsucc, hdb.symm⟩
      · cases h
    · rcases step3Ops_shape env snapshot _ h3 with ⟨nm, hop⟩
      cases hop
    · rcases hop4 : h4 with _
      by_cases hc : ((step3Store env snapshot (step1Store snapshot.id
          (store.get_snapshots group.id) store)).add_history
          { operation_type := "rollback",
            results := some (rollbackResults env snapshot.database_snapshots) }
          ).settings.preferences.auto_create_checkpoint &&
          (rollbackResults env snapshot.database_snapshots).countP OperationResult.success ==
          (rollbackResults env snapshot.database_snapshots).length
      · rw [if_pos hc] at h4
        rcases autoOps_shape _ _ _ _ h4 with ⟨_, _, _, hop⟩
        cases hop
      · rw [if_neg hc] at h4
        cases h4
  · intro db nm hop
    rw [rollbackMain_trace] at hop
    simp only [List.mem_append] at hop
    rcases hop with ((h1 | h2) | h3) | h4
    · rcases (mem_step1Ops _ _ _).mp h1 with ⟨_, _, _, _, _, _, hop⟩
      cases hop
    · rcases (mem_step2Ops _ _).mp h2 with ⟨ds, hds, hsucc, hor⟩
      rcases hor with h | h
      · cases h
      · injection h with hdb hnm
        exact ⟨ds, hds, hsucc, hdb.symm, hnm.symm⟩
    · rcases step3Ops_shape env snapshot _ h3 with ⟨nm2, hop⟩
      cases hop
    · by_cases hc : ((step3Store env snapshot (step1Store snapshot.id
          (store.get_snapshots group.id) store)).add_history
          { operation_type := "rollback",
            results := some (rollbackResults env snapshot.database_snapshots) }
          ).settings.preferences.auto_create_checkpoint &&
          (rollbackResults env snapshot.database_snapshots).countP OperationResult.success ==
          (rollbackResults env snapshot.database_snapshots).length
      · rw [if_pos hc] at h4
        rcases autoOps_shape _ _ _ _ h4 with ⟨_, _, _, hop⟩
        cases hop
      · rw [if_neg hc] at h4
        cases h4
  · intro ds hds hsucc
    rw [rollbackMain_trace]
    simp only [List.mem_append]
    left; left; right
    exact (mem_step2Ops _ _).mpr ⟨ds, hds, hsucc, Or.inr rfl⟩
  · intro hfail
    rcases hfail with ⟨r, hr, hrf⟩
    have hc : ¬ ((rollbackResults env snapshot.database_snapshots).countP
        OperationResult.success = (rollbackResults env snapshot.database_snapshots).length) := by
      intro heq
      have := List.countP_eq_length.mp heq r hr
      rw [hrf] at this
      cases this
    have hbeq : ((rollbackResults env snapshot.database_snapshots).countP
        OperationResult.success ==
        (rollbackResults env snapshot.database_snapshots).length) = false := by
      simpa using hc
    have hfully : fullyRestored env snapshot.database_snapshots = false := by
      unfold fullyRestored
      rw [hbeq]
      rfl
    rw [rollbackMain_store]
    rw [if_neg (by rw [hbeq]; simp)]
    show snapshot ∈ (step3Store env snapshot (step1Store snapshot.id
      (store.get_snapshots group.id) store)).snapshots
    unfold step3Store
    rw [if_neg (by rw [hfully]; simp)]
    rcases findSnapshotAndGroup_mem store snapshot_id snapshot group hfind with
      ⟨hmem, _, _, _⟩
    apply (mem_step1Store _ _ _ _).mpr
    refine ⟨hmem, ?_⟩
    intro g hg
    by_cases hid : g.id = snapshot.id
    · exact Or.inl hid
    · exact Or.inr (fun h => hid h.symm)

/-- Witness for C2, the spec scenario: database `A` succeeded and `B` failed
at creation time.  The theorem applies, and concretely: `B` is reported with
"Original snapshot failed", only `A` is evicted/restored, the result is
`success=false` with 1 restored and 1 failed, and the target row survives. -/
theorem rollback_skips_failed_entries_witness :
    findSnapshotAndGroup rbStore "t" = some (rbTarget, rbGroup) ∧
    (∃ result : RollbackResult,
      ((rollback_snapshot rbEnv rbStore "t").response = RollbackResponse.ok result ∨
        ∃ msg, (rollback_snapshot rbEnv rbStore "t").response =
          RollbackResponse.errWithData msg result) ∧
      (∀ ds ∈ rbTarget.database_snapshots, ds.success = false →
        ({ database := ds.database, success := false,
           error := some "Original snapshot failed" } : OperationResult) ∈ result.results) ∧
      (∀ db, RemoteOp.killConnections db ∈ (rollback_snapshot rbEnv rbStore "t").trace →
        ∃ ds ∈ rbTarget.database_snapshots, ds.success = true ∧ ds.database = db) ∧
      (∀ db nm,
        RemoteOp.restoreFromSnapshot db nm ∈ (rollback_snapshot rbEnv rbStore "t").trace →
        ∃ ds ∈ rbTarget.database_snapshots, ds.success = true ∧ ds.database = db ∧
          ds.snapshot_name = nm) ∧
      (∀ ds ∈ rbTarget.database_snapshots, ds.success = true →
        RemoteOp.restoreFromSnapshot ds.database ds.snapshot_name ∈
          (rollback_snapshot rbEnv rbStore "t").trace) ∧
      ((∃ r ∈ result.results, r.success = false) →
        rbTarget ∈ (rollback_snapshot rbEnv rbStore "t").store.snapshots)) ∧
    (rollback_snapshot rbEnv rbStore "t").response =
      RollbackResponse.errWithData "Rollback failed: 1/2 databases restored"
        { success := false, databases_restored := 1, databases_failed := 1,
          results :=
            [ { database := "A", success := true, error := none }
            , { database := "B", success := false,
                error := some "Original snapshot failed" } ] } ∧
    (rollback_snapshot rbEnv rbStore "t").trace =
      [ RemoteOp.dropSnapshot "A_snapshot_Two_DB_1"
      , RemoteOp.dropSnapshot "B_snapshot_Two_DB_1"
      , RemoteOp.killConnections "A"
      , RemoteOp.restoreFromSnapshot "A" "A_snapshot_Two_DB_2" ] ∧
    (rollback_snapshot rbEnv rbStore "t").store.snapshots = [rbTarget] := by
  refine ⟨by decide,
    rollback_skips_failed_entries rbEnv rbStore "t" rbTarget rbGroup (by decide) (by decide),
    by decide, by decide, by decide⟩

/-! ### C4: other checkpoints are dropped before any restore, irrevocably -/

/-- **C4.** In every rollback that reaches the main protocol: the remote
trace splits as a prefix containing the drop request for every successful
snapshot object of every other tracked checkpoint of the group, and that
prefix contains no restore; after step 1 — the state in which the restore
phase runs — no row with any other checkpoint's id remains; and when some
per-database result failed, the other checkpoints' rows are still absent from
the final store and the trace holds no create request (nothing is undone or
recreated). -/
theorem rollback_drops_others_first (env : RollbackEnv) (store : Store)
    (snapshot_id : String) (snapshot : Snapshot) (group : Group)
    (hfind : findSnapshotAndGroup store snapshot_id = some (snapshot, group))
    (hext : externalSnapshots env store group = []) :
    (∃ pre rest, (rollback_snapshot env store snapshot_id).trace = pre ++ rest ∧
      (∀ other ∈ store.get_snapshots group.id, ¬ other.id = snapshot.id →
        ∀ ds ∈ other.database_snapshots, ds.success = true →
          RemoteOp.dropSnapshot ds.snapshot_name ∈ pre) ∧
      (∀ op ∈ pre, ∀ db nm, ¬ op = RemoteOp.restoreFromSnapshot db nm)) ∧
    (∀ other ∈ store.get_snapshots group.id, ¬ other.id = snapshot.id →
      ∀ s ∈ (step1Store snapshot.id (store.get_snapshots group.id) store).snapshots,
        ¬ s.id = other.id) ∧
    ((∃ r ∈ rollbackResults env snapshot.database_snapshots, r.success = false) →
      (∀ other ∈ store.get_snapshots group.id, ¬ other.id = snapshot.id →
        ∀ s ∈ (rollback_snapshot env store snapshot_id).store.snapshots,
          ¬ s.id = other.id) ∧
      (∀ op ∈ (rollback_snapshot env store snapshot_id).trace,
        ∀ db nm p, ¬ op = RemoteOp.createSnapshot db nm p)) := by
  rw [rollback_snapshot_no_external env store snapshot_id snapshot group hfind hext]
  have hstep1mem : ∀ other ∈ store.get_snapshots group.id, ¬ other.id = snapshot.id →
      ∀ s ∈ (step1Store snapshot.id (store.get_snapshots group.id) store).snapshots,
        ¬ s.id = other.id := by
    intro other hother hne s hs
    rcases (mem_step1Store _ _ _ _).mp hs with ⟨_, hall⟩
    rcases hall other hother with h | h
    · exact absurd h hne
    · exact h
  refine ⟨?_, hstep1mem, ?_⟩
  · rw [rollbackMain_trace, List.append_assoc, List.append_assoc]
    refine ⟨step1Ops snapshot.id (store.get_snapshots group.id), _, rfl, ?_, ?_⟩
    · intro other hother hne ds hds hsucc
      exact (mem_step1Ops _ _ _).mpr ⟨other, hother, hne, ds, hds, hsucc, rfl⟩
    · intro op hop db nm heq
      rcases (mem_step1Ops _ _ _).mp hop with ⟨_, _, _, _, _, _, hshape⟩
      rw [heq] at hshape
      cases hshape
  · intro hfail
    rcases hfail with ⟨r, hr, hrf⟩
    have hc : ¬ ((rollbackResults env snapshot.database_snapshots).countP
        OperationResult.success = (rollbackResults env snapshot.database_snapshots).length) := by
      intro heq
      have := List.countP_eq_length.mp heq r hr
      rw [hrf] at this
      cases this
    have hbeq : ((rollbackResults env snapshot.database_snapshots).countP
        OperationResult.success ==
        (rollbackResults env snapshot.database_snapshots).length) = false := by
      simpa using hc
    have hfully : fullyRestored env snapshot.database_snapshots = false := by
      unfold fullyRestored
      rw [hbeq]
      rfl
    constructor
    · intro other hother hne s hs
      rw [rollbackMain_store, if_neg (by rw [hbeq]; simp)] at hs
      have hs2 : s ∈ (step3Store env snapshot (step1Store snapshot.id
          (store.get_snapshots group.id) store)).snapshots := hs
      unfold step3Store at hs2
      rw [if_neg (by rw [hfully]; simp)] at hs2
      exact hstep1mem other hother hne s hs2
    · intro op hop db nm p heq
      subst heq
      rw [rollbackMain_trace, if_neg (by rw [hbeq]; simp)] at hop
      simp only [List.mem_append] at hop
      rcases hop with ((h1 | h2) | h3) | h4
      · rcases (mem_step1Ops _ _ _).mp h1 with ⟨_, _, _, _, _, _, hshape⟩
        cases hshape
      · rcases (mem_step2Ops _ _).mp h2 with ⟨_, _, _, hor⟩
        rcases hor with h | h <;> cases h
      · rcases step3Ops_shape env snapshot _ h3 with ⟨_, hshape⟩
        cases hshape
      · cases h4

/-- Witness for C4 at the partial scenario: the hypotheses hold, the theorem
applies, and concretely the older checkpoint's two drops open the trace while
its row is gone from the final store even though the rollback failed. -/
theorem rollback_drops_others_first_witness :
    findSnapshotAndGroup rbStore "t" = some (rbTarget, rbGroup) ∧
    externalSnapshots rbEnv rbStore rbGroup = [] ∧
    (∃ pre rest, (rollback_snapshot rbEnv rbStore "t").trace = pre ++ rest ∧
      (∀ other ∈ rbStore.get_snapshots rbGroup.id, ¬ other.id = rbTarget.id →
        ∀ ds ∈ other.database_snapshots, ds.success = true →
          RemoteOp.dropSnapshot ds.snapshot_name ∈ pre) ∧
      (∀ op ∈ pre, ∀ db nm, ¬ op = RemoteOp.restoreFromSnapshot db nm)) ∧
    ((rollback_snapshot rbEnv rbStore "t").store.snapshots = [rbTarget]) := by
  refine ⟨by decide, by decide, ?_, by decide⟩
  exact (rollback_drops_others_first rbEnv rbStore "t" rbTarget rbGroup
    (by decide) (by decide)).1

/-! ### C5: the automatic checkpoint after a fully successful rollback -/

/-- Adding a history entry does not touch settings. -/
theorem add_history_settings (st : Store) (e : HistoryEntry) :
    (st.add_history e).settings = st.settings := rfl

/-- Adding a history entry does not touch the snapshots table. -/
theorem add_history_snapshots (st : Store) (e : HistoryEntry) :
    (st.add_history e).snapshots = st.snapshots := rfl

/-- Adding a snapshot appends it to the snapshots table. -/
theorem add_snapshot_snapshots (st : Store) (s : Snapshot) :
    (st.add_snapshot s).snapshots = st.snapshots ++ [s] := rfl

/-- Step 3 does not touch settings. -/
theorem step3Store_settings (env : RollbackEnv) (snapshot : Snapshot) (st : Store) :
    (step3Store env snapshot st).settings = st.settings := by
  unfold step3Store
  by_cases h : fullyRestored env snapshot.database_snapshots = true
  · rw [if_pos h]; rfl
  · rw [if_neg h]

/-- **C5 (amended).** If auto-create-checkpoint is enabled and every database
of the target checkpoint restores successfully, then afterwards the group's
checkpoints consist of exactly one new checkpoint with `is_automatic=true`
and display name "Automatic" — but its sequence number is `get_next_sequence`
evaluated *after* the rollback deleted every checkpoint of the group, hence
1, not strictly greater than the sequence numbers that existed before the
rollback (see the counterexample).  The reported rollback result is the
successful one regardless of the auto-checkpoint creation outcomes (the
conclusion holds for every `createOk` oracle, including an always-failing
one). -/
theorem rollback_auto_checkpoint (env : RollbackEnv) (store : Store)
    (snapshot_id : String) (snapshot : Snapshot) (group : Group)
    (hfind : findSnapshotAndGroup store snapshot_id = some (snapshot, group))
    (hext : externalSnapshots env store group = [])
    (hauto : store.settings.preferences.auto_create_checkpoint = true)
    (hall : ∀ ds ∈ snapshot.database_snapshots,
      ds.success = true ∧ env.restoreOk ds.database ds.snapshot_name = true)
    (hne : snapshot.database_snapshots ≠ []) :
    (rollback_snapshot env store snapshot_id).store.get_snapshots group.id =
      [ { id := env.autoId, group_id := group.id, display_name := "Automatic",
          sequence := 1, created_at := env.now, created_by := env.user,
          database_snapshots := autoDatabaseSnapshots env group 1,
          is_automatic := true } ] ∧
    (rollback_snapshot env store snapshot_id).response =
      RollbackResponse.ok (rollbackResultOf env snapshot.database_snapshots) ∧
    (rollbackResultOf env snapshot.database_snapshots).success = true := by
  rw [rollback_snapshot_no_external env store snapshot_id snapshot group hfind hext]
  have hressucc : ∀ r ∈ rollbackResults env snapshot.database_snapshots,
      r.success = true := by
    intro r hr
    rcases List.mem_map.mp hr with ⟨ds, hds, hr2⟩
    subst hr2
    rcases hall ds hds with ⟨h1, h2⟩
    unfold restoreResult
    rw [h1]
    simp [h2]
  have hcount : (rollbackResults env snapshot.database_snapshots).countP
      OperationResult.success = (rollbackResults env snapshot.database_snapshots).length :=
    List.countP_eq_length.mpr hressucc
  have hpos : 0 < (rollbackResults env snapshot.database_snapshots).length := by
    rw [rollbackResults_length]
    exact List.length_pos.mpr hne
  have hbeq : ((rollbackResults env snapshot.database_snapshots).countP
      OperationResult.success ==
      (rollbackResults env snapshot.database_snapshots).length) = true := by
    simpa using hcount
  have hfully : fullyRestored env snapshot.database_snapshots = true := by
    unfold fullyRestored
    rw [hbeq]
    simpa using hpos
  have hsucc : (rollbackResultOf env snapshot.database_snapshots).success = true := by
    show ((rollbackResults env snapshot.database_snapshots).countP OperationResult.success ==
      (rollbackResults env snapshot.database_snapshots).length &&
      decide (0 < (rollbackResults env snapshot.database_snapshots).length)) = true
    rw [hbeq]
    simpa using hpos
  have hsettings : ((step3Store env snapshot (step1Store snapshot.id
      (store.get_snapshots group.id) store)).add_history
      { operation_type := "rollback",
        results := some (rollbackResults env snapshot.database_snapshots) }
      ).settings = store.settings := by
    rw [add_history_settings, step3Store_settings, step1Store_settings]
  have hcond : (((step3Store env snapshot (step1Store snapshot.id
      (store.get_snapshots group.id) store)).add_history
      { operation_type := "rollback",
        results := some (rollbackResults env snapshot.database_snapshots) }
      ).settings.preferences.auto_create_checkpoint &&
      (rollbackResults env snapshot.database_snapshots).countP OperationResult.success ==
      (rollbackResults env snapshot.database_snapshots).length) = true := by
    rw [hsettings, hauto, hbeq]
    rfl
  have hempty : ((step3Store env snapshot (step1Store snapshot.id
      (store.get_snapshots group.id) store)).add_history
      { operation_type := "rollback",
        results := some (rollbackResults env snapshot.database_snapshots) }
      ).get_snapshots group.id = [] := by
    unfold Store.get_snapshots
    apply List.filter_eq_nil_iff.mpr
    intro s hs hgid
    have hgid2 : s.group_id = group.id := by simpa using hgid
    rw [add_history_snapshots] at hs
    unfold step3Store at hs
    rw [if_pos hfully] at hs
    rcases (mem_delete_snapshot _ _ _).mp hs with ⟨hs1, hsid⟩
    rcases (mem_step1Store _ _ _ _).mp hs1 with ⟨hs0, hall2⟩
    have hmem : s ∈ store.get_snapshots group.id :=
      List.mem_filter.mpr ⟨hs0, by simpa using hgid2⟩
    rcases hall2 s hmem with h | h
    · exact hsid h
    · exact h rfl
  have hseq : ((step3Store env snapshot (step1Store snapshot.id
      (store.get_snapshots group.id) store)).add_history
      { operation_type := "rollback",
        results := some (rollbackResults env snapshot.database_snapshots) }
      ).get_next_sequence group.id = 1 := by
    unfold Store.get_next_sequence
    rw [hempty]
    rfl
  refine ⟨?_, ?_, hsucc⟩
  · rw [rollbackMain_store, if_pos hcond]
    simp only [autoStore]
    rw [hseq]
    unfold Store.get_snapshots
    rw [add_history_snapshots, add_snapshot_snapshots, List.filter_append]
    have hempty2 := hempty
    unfold Store.get_snapshots at hempty2
    rw [hempty2]
    simp
  · rw [rollbackMain_response, if_pos hsucc]

/-- Store of the C5 counterexample: group `g3` over database `A` with a
single complete checkpoint of sequence 5, auto-create-checkpoint enabled. -/
def autoCexStore : Store :=
  { groups := [{ id := "g3", name := "G3", databases := ["A"], profile_id := some "p1",
                 created_by := none, created_at := 0, updated_at := 0 }]
    snapshots :=
      [ { id := "t5", group_id := "g3", display_name := "Five", sequence := 5,
          created_at := 0, created_by := none,
          database_snapshots :=
            [ { database := "A", snapshot_name := "A_snapshot_G3_5",
                success := true, error := none } ],
          is_automatic := false } ]
    history := []
    settings := { preferences := { default_group := "", max_history_entries := 100,
                                   auto_create_checkpoint := true }
                  auto_verification := { enabled := false, interval_minutes := 15 }
                  connection := ConnectionInfo.default
                  password_hash := none, password_skipped := false }
    profiles := [] }

/-- Environment of the C5 counterexample: every restore and create succeeds. -/
def autoCexEnv : RollbackEnv :=
  { serverSnapshots := [("A_snapshot_G3_5", "A")]
    restoreOk := fun _ _ => true
    restoreErr := fun _ _ => ""
    createOk := fun _ _ => true
    createErr := fun _ _ => ""
    snapshot_path := "/var/opt/mssql/snapshots"
    autoId := "auto9", now := 3, user := none }

/-- **C5 counterexample.** A fully successful rollback of the sequence-5
checkpoint with auto-create enabled produces exactly one automatic checkpoint
— but with sequence 1, because `get_next_sequence` runs after all the group's
checkpoints were deleted.  1 is not strictly greater than the pre-existing
sequence 5, refuting the claimed strict growth. -/
theorem rollback_auto_sequence_counterexample :
    5 ∈ (autoCexStore.get_snapshots "g3").map Snapshot.sequence ∧
    ((rollback_snapshot autoCexEnv autoCexStore "t5").store.get_snapshots "g3").map
      Snapshot.sequence = [1] ∧
    ((rollback_snapshot autoCexEnv autoCexStore "t5").store.get_snapshots "g3").all
      Snapshot.is_automatic = true ∧
    (rollback_snapshot autoCexEnv autoCexStore "t5").response =
      RollbackResponse.ok
        { success := true, databases_restored := 1, databases_failed := 0,
          results := [{ database := "A", success := true, error := none }] } ∧
    ¬ (1 > 5) := by
  refine ⟨by decide, by decide, by decide, by decide, by decide⟩

/-- Witness for the amended C5 theorem at the same concrete input. -/
theorem rollback_auto_checkpoint_witness :
    autoCexStore.settings.preferences.auto_create_checkpoint = true ∧
    ((rollback_snapshot autoCexEnv autoCexStore "t5").store.get_snapshots "g3").map
      Snapshot.sequence = [1] := by
  have hfind : findSnapshotAndGroup autoCexStore "t5" =
      some (autoCexStore.snapshots.head (by decide), autoCexStore.groups.head (by decide)) := by
    decide
  have h := rollback_auto_checkpoint autoCexEnv autoCexStore "t5"
    (autoCexStore.snapshots.head (by decide)) (autoCexStore.groups.head (by decide))
    hfind (by decide) (by decide) (by decide) (by decide)
  refine ⟨by decide, ?_⟩
  have hgid : (autoCexStore.groups.head (by decide)).id = "g3" := by decide
  rw [← hgid]
  rw [h.1]
  decide

/-! ### C6: shrinking a group's membership invalidates every checkpoint -/

/-- `commands/groups.rs` `update_group` lines 146-155, first cleanup loop:
for every checkpoint, drop the successful snapshot objects of the removed
databases. -/
def updateGroupOps1 (snapshots : List Snapshot) (removed_databases : List String) :
    List RemoteOp :=
  snapshots.flatMap (fun snapshot =>
    (snapshot.database_snapshots.filter (fun ds =>
        removed_databases.contains ds.database && ds.success)).map
      (fun ds => RemoteOp.dropSnapshot ds.snapshot_name))

/-- `commands/groups.rs` `update_group` lines 157-166, second cleanup loop:
every checkpoint of the group is deleted outright, dropping each successful
snapshot object. -/
def updateGroupOps2 (snapshots : List Snapshot) : List RemoteOp :=
  snapshots.flatMap (fun snapshot =>
    (snapshot.database_snapshots.filter DatabaseSnapshot.success).map
      (fun ds => RemoteOp.dropSnapshot ds.snapshot_name))

/-- Metadata effect of the second cleanup loop: delete every checkpoint row. -/
def deleteAllSnapshots (snapshots : List Snapshot) (store : Store) : Store :=
  snapshots.foldl (fun st s => st.delete_snapshot s.id) store

/-- `commands/groups.rs` `update_group` (lines 102-200), from the point where
the store is open.  `none` models the error returns: group not found, or —
when databases were removed — `get_profile_for_group` failing (no
`profile_id` or no such profile row); the SQL Server connection is modelled
as live.  When databases were removed, both cleanup loops run before the
group row is updated; the UUID/timestamp of the history entry are elided. -/
def update_group_cmd (store : Store) (id name : String) (databases : List String)
    (profile_id : Option String) (now : Nat) :
    Option (Store × List RemoteOp × Group) :=
  match store.groups.find? (fun g => g.id = id) with
  | none => none
  | some existing =>
    let removed_databases := existing.databases.filter (fun db => !(databases.contains db))
    let group : Group :=
      { id := id, name := name, databases := databases,
        profile_id := profile_id.or existing.profile_id,
        created_by := existing.created_by, created_at := existing.created_at,
        updated_at := now }
    if removed_databases ≠ [] then
      match existing.profile_id.bind
          (fun pid => store.profiles.find? (fun p => p.id = pid)) with
      | none => none
      | some _profile =>
        let snapshots := store.get_snapshots id
        let store1 := deleteAllSnapshots snapshots store
        let store2 := (store1.update_group group).add_history
          { operation_type := "update_group", results := none }
        some (store2, updateGroupOps1 snapshots removed_databases
          ++ updateGroupOps2 snapshots, group)
    else
      let store2 := (store.update_group group).add_history
        { operation_type := "update_group", results := none }
      some (store2, [], group)

/-- Membership after deleting every listed checkpoint row. -/
theorem mem_deleteAllSnapshots (gs : List Snapshot) (st : Store) (s : Snapshot) :
    s ∈ (deleteAllSnapshots gs st).snapshots ↔
      s ∈ st.snapshots ∧ ∀ g ∈ gs, ¬ s.id = g.id := by
  induction gs generalizing st with
  | nil => simp [deleteAllSnapshots]
  | cons g t ih =>
    show s ∈ (deleteAllSnapshots t (st.delete_snapshot g.id)).snapshots ↔ _
    rw [ih, mem_delete_snapshot]
    constructor
    · rintro ⟨⟨hs, hid⟩, hall⟩
      refine ⟨hs, ?_⟩
      intro x hx
      rcases List.mem_cons.mp hx with rfl | hx
      · exact hid
      · exact hall x hx
    · rintro ⟨hs, hall⟩
      exact ⟨⟨hs, hall g (List.mem_cons_self g t)⟩,
        fun x hx => hall x (List.mem_cons_of_mem _ hx)⟩

/-- The group row update touches no snapshot row. -/
theorem update_group_snapshots (st : Store) (g : Group) :
    (st.update_group g).snapshots = st.snapshots := rfl

/-- **C6.** For every group update (with the group found and its profile
resolvable) whose new database list omits at least one stored database: the
command succeeds, zero checkpoints remain for the group afterwards, and a
remote drop was requested for every successful snapshot object of every
checkpoint of the group — those of removed and of remaining databases
alike. -/
theorem update_group_removal_invalidates (store : Store) (id name : String)
    (databases : List String) (profile_id : Option String) (now : Nat)
    (existing : Group) (p : Profile)
    (hfind : store.groups.find? (fun g => g.id = id) = some existing)
    (hrem : ∃ db ∈ existing.databases, ¬ db ∈ databases)
    (hprof : existing.profile_id.bind
      (fun pid => store.profiles.find? (fun q => q.id = pid)) = some p) :
    ∃ store2 ops group2,
      update_group_cmd store id name databases profile_id now =
        some (store2, ops, group2) ∧
      store2.get_snapshots id = [] ∧
      (∀ s ∈ store.get_snapshots id, ∀ ds ∈ s.database_snapshots, ds.success = true →
        RemoteOp.dropSnapshot ds.snapshot_name ∈ ops) := by
  have hremne : existing.databases.filter (fun db => !(databases.contains db)) ≠ [] := by
    rcases hrem with ⟨db, hdb, hnin⟩
    intro hnil
    have hmem : db ∈ existing.databases.filter (fun db => !(databases.contains db)) := by
      apply List.mem_filter.mpr
      refine ⟨hdb, ?_⟩
      simp [hnin]
    rw [hnil] at hmem
    cases hmem
  have heq : update_group_cmd store id name databases profile_id now =
      some ((((deleteAllSnapshots (store.get_snapshots id) store).update_group
        { id := id, name := name, databases := databases,
          profile_id := profile_id.or existing.profile_id,
          created_by := existing.created_by, created_at := existing.created_at,
          updated_at := now }).add_history
          { operation_type := "update_group", results := none }),
        updateGroupOps1 (store.get_snapshots id)
            (existing.databases.filter (fun db => !(databases.contains db)))
          ++ updateGroupOps2 (store.get_snapshots id),
        { id := id, name := name, databases := databases,
          profile_id := profile_id.or existing.profile_id,
          created_by := existing.created_by, created_at := existing.created_at,
          updated_at := now }) := by
    unfold update_group_cmd
    rw [hfind]
    show (if existing.databases.filter (fun db => !(databases.contains db)) ≠ [] then
        match existing.profile_id.bind
            (fun pid => store.profiles.find? (fun q => q.id = pid)) with
        | none => none
        | some _profile =>
          some ((((deleteAllSnapshots (store.get_snapshots id) store).update_group
            { id := id, name := name, databases := databases,
              profile_id := profile_id.or existing.profile_id,
              created_by := existing.created_by, created_at := existing.created_at,
              updated_at := now }).add_history
              { operation_type := "update_group", results := none }),
            updateGroupOps1 (store.get_snapshots id)
                (existing.databases.filter (fun db => !(databases.contains db)))
              ++ updateGroupOps2 (store.get_snapshots id),
            { id := id, name := name, databases := databases,
              profile_id := profile_id.or existing.profile_id,
              created_by := existing.created_by, created_at := existing.created_at,
              updated_at := now })
      else
        some (((store.update_group
          { id := id, name := name, databases := databases,
            profile_id := profile_id.or existing.profile_id,
            created_by := existing.created_by, created_at := existing.created_at,
            updated_at := now }).add_history
            { operation_type := "update_group", results := none }),
          [],
          { id := id, name := name, databases := databases,
            profile_id := profile_id.or existing.profile_id,
            created_by := existing.created_by, created_at := existing.created_at,
            updated_at := now }) : Option (Store × List RemoteOp × Group)) = _
    rw [if_pos hremne, hprof]
  refine ⟨_, _, _, heq, ?_, ?_⟩
  · unfold Store.get_snapshots
    apply List.filter_eq_nil_iff.mpr
    intro s hs hgid
    have hgid2 : s.group_id = id := by simpa using hgid
    rw [add_history_snapshots, update_group_snapshots] at hs
    rcases (mem_deleteAllSnapshots _ _ _).mp hs with ⟨hs0, hall⟩
    have hmem : s ∈ store.get_snapshots id :=
      List.mem_filter.mpr ⟨hs0, by simpa using hgid2⟩
    exact hall s hmem rfl
  · intro s hs ds hds hsucc
    apply List.mem_append.mpr
    right
    unfold updateGroupOps2
    apply List.mem_flatMap.mpr
    exact ⟨s, hs, List.mem_map.mpr ⟨ds, List.mem_filter.mpr ⟨hds, hsucc⟩, rfl⟩⟩

/-- Two-database group of the C6 scenario with one complete checkpoint. -/
def ugGroup : Group :=
  { id := "g4", name := "Pair", databases := ["A", "B"], profile_id := some "p1",
    created_by := none, created_at := 0, updated_at := 0 }

/-- Store of the C6 scenario, including the referenced profile row. -/
def ugStore : Store :=
  { groups := [ugGroup]
    snapshots :=
      [ { id := "c1", group_id := "g4", display_name := "Complete", sequence := 1,
          created_at := 0, created_by := none,
          database_snapshots :=
            [ { database := "A", snapshot_name := "A_snapshot_Pair_1",
                success := true, error := none }
            , { database := "B", snapshot_name := "B_snapshot_Pair_1",
                success := true, error := none } ],
          is_automatic := false } ]
    history := []
    settings := { preferences := { default_group := "", max_history_entries := 100,
                                   auto_create_checkpoint := false }
                  auto_verification := { enabled := false, interval_minutes := 15 }
                  connection := ConnectionInfo.default
                  password_hash := none, password_skipped := false }
    profiles := [{ id := "p1", name := "Main", platform_type := "Microsoft SQL Server",
                   host := "localhost", port := 1433, username := "sa", password := "pw",
                   trust_certificate := true, snapshot_path := "/var/opt/mssql/snapshots",
                   description := none, notes := none, is_active := true,
                   created_at := 0, updated_at := 0 }] }

/-- Witness for C6, the spec scenario: removing `B` from the two-database
group leaves zero checkpoints and requests drops for both the removed and the
remaining database's objects. -/
theorem update_group_removal_invalidates_witness :
    (∃ store2 ops group2,
      update_group_cmd ugStore "g4" "Pair" ["A"] none 9 = some (store2, ops, group2) ∧
      store2.get_snapshots "g4" = [] ∧
      (∀ s ∈ ugStore.get_snapshots "g4", ∀ ds ∈ s.database_snapshots, ds.success = true →
        RemoteOp.dropSnapshot ds.snapshot_name ∈ ops)) ∧
    (∃ out, update_group_cmd ugStore "g4" "Pair" ["A"] none 9 = some out ∧
      RemoteOp.dropSnapshot "A_snapshot_Pair_1" ∈ out.2.1 ∧
      RemoteOp.dropSnapshot "B_snapshot_Pair_1" ∈ out.2.1) := by
  constructor
  · exact update_group_removal_invalidates ugStore "g4" "Pair" ["A"] none 9 ugGroup
      (ugStore.profiles.head (by decide)) (by decide) (by decide) (by decide)
  · refine ⟨(update_group_cmd ugStore "g4" "Pair" ["A"] none 9).get (by decide), ?_, ?_, ?_⟩
    · decide
    · decide
    · decide

end SQLParrot
